import Mathlib

/-!
Verification of the mysurflife backend (src/backend/main.py) against its
natural-language specification.

The Python module is shallowly embedded below.  Conventions used throughout:

* Machine floats are idealised as exact rationals (`ℚ`) where the code only
  does field arithmetic and comparisons, and as reals (`ℝ`) where the code
  calls `math.sqrt`/`math.sin`.  Python `round(x, n)` is idealised as
  rounding `x * 10^n` to the nearest integer (`round` from Mathlib).
* A feed line is modelled pre-tokenised (Python's `line.split()`); a line
  beginning with `#` is a `FeedLine.comment`, every other line a
  `FeedLine.data`; a blank line is `data []`.  Substring tests such as
  `"WVHT" in line` on a header line are modelled as token membership.
* Network effects are modelled by a `FetchOutcome` input: either the fetched
  text (as lines) or one of the failure kinds the code distinguishes
  (`httpx.TimeoutException`, `httpx.HTTPStatusError`, other exceptions).
* Python `dict(zip(headers, values))` is an association list where the last
  binding of a key wins; `d.get(k)`/`d.get(k, v)` are `dictGet?`/`dictGetD`.
* Python exceptions that escape an inner handler are modelled explicitly
  (error records carry the failure, a crashed scan sets a flag); exception
  message texts are abbreviated, no claim depends on them.
-/

namespace MySurfLife

/-- Value of a list of decimal digit characters, most significant first. -/
def digitsVal (cs : List Char) : ℕ :=
  cs.foldl (fun acc c => acc * 10 + (c.toNat - 48)) 0

/-- Model of Python `float(tok)` on whitespace-stripped tokens: an optional
sign, digits, and an optional fractional part.  Returns `none` when Python
would raise `ValueError` (e.g. on "MM").  Exponents and special values are
not produced by the feeds modelled here. -/
def pyFloat? (s : String) : Option ℚ :=
  let cs := s.data
  let sgn : ℚ := if cs.head? = some '-' then -1 else 1
  let body := if cs.head? = some '-' ∨ cs.head? = some '+' then cs.tail else cs
  let ip := body.takeWhile (fun c => c ≠ '.')
  match body.dropWhile (fun c => c ≠ '.') with
  | [] => if ip ≠ [] ∧ ip.all Char.isDigit then some (sgn * digitsVal ip) else none
  | '.' :: fp =>
      if (ip ≠ [] ∨ fp ≠ []) ∧ ip.all Char.isDigit ∧ fp.all Char.isDigit then
        some (sgn * ((digitsVal ip : ℚ) + (digitsVal fp : ℚ) / 10 ^ fp.length))
      else none
  | _ :: _ => none

/-- Model of Python `int(tok)`: an optional sign followed by digits only. -/
def pyInt? (s : String) : Option ℤ :=
  let cs := s.data
  let body := if cs.head? = some '-' ∨ cs.head? = some '+' then cs.tail else cs
  if body ≠ [] ∧ body.all Char.isDigit then
    some (if cs.head? = some '-' then -(digitsVal body : ℤ) else (digitsVal body : ℤ))
  else none

/-- Model of Python `s.zfill(2)` for the timestamp fields. -/
def zfill2 (s : String) : String :=
  if s.length = 0 then "00" else if s.length = 1 then "0" ++ s else s

/-- Association list standing for a Python dict built by `dict(zip(h, v))`. -/
abbrev Dict := List (String × String)

/-- Model of `dict(zip(headers, toks))`: pairs in order, later keys win. -/
def dictZip (headers toks : List String) : Dict := headers.zip toks

/-- Model of `d.get(k)`: the value of the last binding of `k`, if any. -/
def dictGet? (d : Dict) (k : String) : Option String := d.reverse.lookup k

/-- Model of `d.get(k, defv)`. -/
def dictGetD (d : Dict) (k defv : String) : String := (dictGet? d k).getD defv

/-- Python truthiness of an optional float: `None` and `0.0` are falsy. -/
def qTruthy : Option ℚ → Bool
  | none => false
  | some q => q != 0

/-- Python truthiness of an optional string: `None` and `""` are falsy. -/
def strTruthy : Option String → Bool
  | none => false
  | some s => s != ""

/-- Model of Python `a or defv` for an optional string `a`. -/
def pyOrStrD (a : Option String) (defv : String) : String :=
  match a with
  | some s => if s = "" then defv else s
  | none => defv

/-- Wave-height trend (main.py lines 171-184): with at least 3 collected
samples, compare the mean of the 2 newest against the mean of samples 2..3
and classify the percentage change. -/
def wave_trend (ws : List ℚ) : String :=
  if 3 ≤ ws.length then
    let recent_avg := (ws.take 2).sum / 2
    let older := (ws.drop 2).take 2
    let older_avg := older.sum / ((min 2 older.length : ℕ) : ℚ)
    let diff_percent := (recent_avg - older_avg) / older_avg * 100
    if 10 < diff_percent then "rising"
    else if diff_percent < -10 then "falling"
    else "holding"
  else "holding"

/-- One line of a fetched NDBC text report, pre-tokenised; `comment` is a
line starting with `#` (tokens of `line.lstrip("#").split()`), `data` any
other line (tokens of `line.split()`; a blank line is `data []`). -/
inductive FeedLine
  | comment (tokens : List String)
  | data (tokens : List String)

/-- Result of one HTTP fetch: the text (as lines) or one of the three
failure kinds the code distinguishes (main.py lines 290-295). -/
inductive FetchOutcome
  | success (lines : List FeedLine)
  | timeout
  | httpStatus (code : ℕ)
  | transportErr (msg : String)

/-- Header detection for current conditions (main.py line 135): the comment
line must mention WVHT, DPD and MWD. -/
def currentHeaderLine (toks : List String) : Bool :=
  toks.contains "WVHT" && toks.contains "DPD" && toks.contains "MWD"

/-- State of the current-conditions parse loop (main.py lines 127-163). -/
structure CurrentScan where
  headers : List String := []
  wave_heights : List ℚ := []
  first_valid_row : Option Dict := none
deriving Repr

/-- One step of the current-conditions parse loop (main.py lines 131-163):
take the first qualifying comment line as the header, skip blank lines and
lines whose token count differs from the header length, skip rows whose
WVHT or DPD is missing, collect up to 5 positive wave heights, and keep the
first valid row. -/
def stepCurrent (st : CurrentScan) : FeedLine → CurrentScan
  | .comment toks =>
      if st.headers = [] ∧ currentHeaderLine toks then { st with headers := toks } else st
  | .data toks =>
      if toks = [] then st
      else if st.headers = [] ∨ toks.length ≠ st.headers.length then st
      else
        let parsed := dictZip st.headers toks
        if dictGet? parsed "WVHT" = some "MM" ∨ dictGet? parsed "WVHT" = some "NaN" ∨
           dictGet? parsed "WVHT" = none ∨ dictGet? parsed "DPD" = some "MM" ∨
           dictGet? parsed "DPD" = some "NaN" ∨ dictGet? parsed "DPD" = none then st
        else
          let st1 :=
            match pyFloat? (dictGetD parsed "WVHT" "0") with
            | some wh =>
                if 0 < wh ∧ st.wave_heights.length < 5 then
                  { st with wave_heights := st.wave_heights ++ [wh] }
                else st
            | none => st
          if st1.first_valid_row = none then { st1 with first_valid_row := some parsed }
          else st1

/-- The whole current-conditions parse loop over the fetched lines. -/
def scanCurrent (lines : List FeedLine) : CurrentScan := lines.foldl stepCurrent {}

/-- Field parse of WVHT (main.py lines 194-197). -/
def parseWVHT (d : Dict) : Option ℚ := pyFloat? (dictGetD d "WVHT" "0")

/-- Field parse of DPD, zero mapped to absent (main.py lines 200-205). -/
def parseDPD (d : Dict) : Option ℚ :=
  (pyFloat? (dictGetD d "DPD" "0")).bind fun q => if q = 0 then none else some q

/-- Field parse of WTMP; note no sentinel filtering (main.py lines 219-222). -/
def parseWTMP (d : Dict) : Option ℚ := pyFloat? (dictGetD d "WTMP" "0")

/-- Field parse of ATMP; note no sentinel filtering (main.py lines 224-228). -/
def parseATMP (d : Dict) : Option ℚ := pyFloat? (dictGetD d "ATMP" "0")

/-- Field parse of WDIR, sentinels 999 and 0 mapped to absent
(main.py lines 230-236 and 78-83). -/
def parseWDIR (d : Dict) : Option ℚ :=
  (pyFloat? (dictGetD d "WDIR" "0")).bind fun q => if q = 999 ∨ q = 0 then none else some q

/-- Field parse of WSPD, sentinel 99 mapped to absent
(main.py lines 238-244 and 85-90). -/
def parseWSPD (d : Dict) : Option ℚ :=
  (pyFloat? (dictGetD d "WSPD" "0")).bind fun q => if q = 99 then none else some q

/-- Field parse of GST, sentinel 99 mapped to absent
(main.py lines 246-252 and 92-97). -/
def parseGST (d : Dict) : Option ℚ :=
  (pyFloat? (dictGetD d "GST" "0")).bind fun q => if q = 99 then none else some q

/-- Model of `parsed.get(a) or parsed.get(b)` for the timestamp column
aliases (main.py lines 187-191). -/
def tsField (d : Dict) (a b : String) : Option String :=
  match dictGet? d a with
  | some s => if s = "" then dictGet? d b else some s
  | none => dictGet? d b

/-- Timestamp string of main.py line 255; `none` models the uncaught
`AttributeError` when a zfilled component is Python `None`. -/
def timestampUTC (d : Dict) : Option String :=
  match tsField d "MM" "mo", tsField d "DD" "dy", tsField d "hh" "hr", tsField d "mm" "mn" with
  | some mo, some dy, some hh, some mn =>
      some ((match tsField d "YY" "yr" with | some y => y | none => "None") ++ "-" ++
        zfill2 mo ++ "-" ++ zfill2 dy ++ "T" ++ zfill2 hh ++ ":" ++ zfill2 mn ++ ":00Z")
  | _, _, _, _ => none

/-- Python `round(x, 2)` on reals. -/
noncomputable def round2r (x : ℝ) : ℝ := ((round (x * 100) : ℤ) : ℝ) / 100

/-- Python `round(x, 1)` on reals. -/
noncomputable def round1r (x : ℝ) : ℝ := ((round (x * 10) : ℤ) : ℝ) / 10

/-- Python `round(x, 1)` on rationals. -/
def round1q (x : ℚ) : ℚ := ((round (x * 10) : ℤ) : ℚ) / 10

/-- Python `round(x, 2)` on rationals. -/
def round2q (x : ℚ) : ℚ := ((round (x * 100) : ℤ) : ℚ) / 100

/-- Surf face height `round(0.7 * wvht * sqrt(dpd), 2)` (main.py line 213). -/
noncomputable def surfHeightVal (h p : ℚ) : ℝ :=
  round2r ((0.7 : ℝ) * (h : ℝ) * Real.sqrt (p : ℝ))

/-- Derived metrics stage (main.py lines 207-216): computed only when both
inputs are Python-truthy (present and nonzero); `none` models the uncaught
`ValueError` of `math.sqrt` on a negative period. -/
noncomputable def surfEnergy : Option ℚ → Option ℚ → Option (Option ℝ × Option ℚ)
  | some h, some p =>
      if h ≠ 0 ∧ p ≠ 0 then
        if p < 0 then none
        else some (some (surfHeightVal h p), some (round1q (h ^ 2 * p)))
      else some (none, none)
  | _, _ => some (none, none)

/-- One record returned by the per-station pipeline.  Success records fill
every field (main.py lines 257-272); error records carry only the station
and the error message; absent optional values are `none`. -/
structure BuoyRecord where
  station : String := ""
  error : Option String := none
  timestamp_utc : Option String := none
  wave_height_m : Option ℚ := none
  wave_trend : Option String := none
  surf_height_m : Option ℝ := none
  wave_energy : Option ℚ := none
  dominant_period_sec : Option (ℚ ⊕ String) := none
  mean_wave_dir : Option String := none
  water_temp_c : Option ℚ := none
  air_temp_c : Option ℚ := none
  wind_dir : Option ℚ := none
  wind_speed_ms : Option ℚ := none
  wind_gust_ms : Option ℚ := none
  wind_source : Option String := none
  lat : Option ℚ := none
  lon : Option ℚ := none
  name : Option String := none

/-- Error record `{"station": bid, "error": msg}`. -/
def errorRecord (bid msg : String) : BuoyRecord := { station := bid, error := some msg }

/-- Header detection for the wind-fallback feed (main.py line 64): the
comment line must mention WDIR and WSPD. -/
def windHeaderLine (toks : List String) : Bool :=
  toks.contains "WDIR" && toks.contains "WSPD"

/-- Row search of `fetch_wind_from_station` (main.py lines 61-104): take the
first qualifying comment line as the header and return the first data line
whose token count matches it, as a dict. -/
def windFindRow (headers : List String) : List FeedLine → Option Dict
  | [] => none
  | .comment toks :: rest =>
      if headers = [] ∧ windHeaderLine toks then windFindRow toks rest
      else windFindRow headers rest
  | .data toks :: rest =>
      if toks = [] then windFindRow headers rest
      else if headers = [] ∨ toks.length ≠ headers.length then windFindRow headers rest
      else some (dictZip headers toks)

/-- Result dict of `fetch_wind_from_station`. -/
structure WindResult where
  wind_dir : Option ℚ := none
  wind_speed_ms : Option ℚ := none
  wind_gust_ms : Option ℚ := none
  wind_source : Option String := none
deriving Repr

/-- Model of `fetch_wind_from_station` (main.py lines 52-108): parse the
fallback station's feed and return the first structurally valid row's wind
fields with sentinels applied; any failure yields the all-`None` dict. -/
def fetch_wind_from_station (station_id : String) (outcome : FetchOutcome) : WindResult :=
  match outcome with
  | .success lines =>
      match windFindRow [] lines with
      | some parsed =>
          { wind_dir := parseWDIR parsed, wind_speed_ms := parseWSPD parsed,
            wind_gust_ms := parseGST parsed, wind_source := some station_id }
      | none => {}
  | _ => {}

/-- Wind-fallback resolution (main.py lines 274-280): when wind direction or
speed is absent and a (truthy) fallback station is configured, overwrite the
three wind fields and the wind source from the fallback fetch. -/
def applyWindFallback (r : BuoyRecord) (fallback : Option String)
    (windOutcomes : String → FetchOutcome) : BuoyRecord :=
  if (r.wind_dir = none ∨ r.wind_speed_ms = none) ∧ strTruthy fallback then
    match fallback with
    | some fb =>
        let fw := fetch_wind_from_station fb (windOutcomes fb)
        { r with wind_dir := fw.wind_dir, wind_speed_ms := fw.wind_speed_ms,
                 wind_gust_ms := fw.wind_gust_ms,
                 wind_source := some (pyOrStrD fw.wind_source "N/A") }
    | none => r
  else r

/-- Post-scan record construction of `fetch_buoy_data` (main.py lines
165-280): first valid row, trend, field parses, derived metrics, timestamp
and wind fallback; error records model the early return and the uncaught
exceptions of the original (caught at main.py line 294). -/
noncomputable def buildResult (bid : String) (st : CurrentScan) (fallback : Option String)
    (windOutcomes : String → FetchOutcome) : BuoyRecord :=
  match st.first_valid_row with
  | none => errorRecord bid "No valid data rows found"
  | some parsed =>
      let wave_height_m := parseWVHT parsed
      let dpd_sec := parseDPD parsed
      match surfEnergy wave_height_m dpd_sec with
      | none => errorRecord bid "math domain error"
      | some se =>
          match timestampUTC parsed with
          | none => errorRecord bid "AttributeError"
          | some ts =>
              applyWindFallback
                { station := bid, timestamp_utc := some ts,
                  wave_height_m := wave_height_m,
                  wave_trend := some (wave_trend st.wave_heights),
                  surf_height_m := se.1, wave_energy := se.2,
                  dominant_period_sec := some (match dpd_sec with
                    | some q => Sum.inl q
                    | none => Sum.inr (dictGetD parsed "DPD" "N/A")),
                  mean_wave_dir := some (dictGetD parsed "MWD" "N/A"),
                  water_temp_c := parseWTMP parsed, air_temp_c := parseATMP parsed,
                  wind_dir := parseWDIR parsed, wind_speed_ms := parseWSPD parsed,
                  wind_gust_ms := parseGST parsed, wind_source := some "buoy" }
                fallback windOutcomes

/-- The module-level cache: key, (cached_at, payload). -/
abbrev Cache := List (String × (ℚ × BuoyRecord))

/-- Cache TTL for current conditions, in minutes (main.py line 17). -/
def CACHE_DURATION : ℚ := 5

/-- Cache read, `cache[k]` when `k in cache`. -/
def cacheGet? (c : Cache) (k : String) : Option (ℚ × BuoyRecord) := c.lookup k

/-- Cache write, `cache[k] = v`: the new binding shadows any previous one. -/
def cacheSet (c : Cache) (k : String) (v : ℚ × BuoyRecord) : Cache :=
  (k, v) :: c.filter fun p => p.1 ≠ k

/-- Fresh part of `fetch_buoy_data` once the cache was missed: failure kinds
become error records (main.py lines 290-295), a parsed result is cached only
when it is not an error record (main.py lines 282-286). -/
noncomputable def fetchFresh (buoy_id : String) (fallback : Option String)
    (outcome : FetchOutcome) (windOutcomes : String → FetchOutcome)
    (cache : Cache) (now : ℚ) : BuoyRecord × Cache :=
  match outcome with
  | .timeout => (errorRecord buoy_id "Request timeout", cache)
  | .httpStatus code => (errorRecord buoy_id ("HTTP " ++ toString code), cache)
  | .transportErr msg => (errorRecord buoy_id msg, cache)
  | .success lines =>
      let r := buildResult buoy_id (scanCurrent lines) fallback windOutcomes
      match r.error with
      | some _ => (r, cache)
      | none => (r, cacheSet cache buoy_id (now, r))

/-- Model of `fetch_buoy_data` (main.py lines 111-295).  `now` is the wall
clock in minutes; the fetch and wind-fallback network effects are inputs. -/
noncomputable def fetch_buoy_data (buoy_id : String) (use_cache : Bool)
    (fallback : Option String) (outcome : FetchOutcome)
    (windOutcomes : String → FetchOutcome) (cache : Cache) (now : ℚ) :
    BuoyRecord × Cache :=
  match cacheGet? cache buoy_id with
  | some entry =>
      if use_cache = true ∧ now - entry.1 < CACHE_DURATION then (entry.2, cache)
      else fetchFresh buoy_id fallback outcome windOutcomes cache now
  | none => fetchFresh buoy_id fallback outcome windOutcomes cache now

/-- Model of the cache-clear endpoint (main.py lines 324-328). -/
def clear_cache (_c : Cache) : Cache := []

/-- One entry of the static station registry (main.py lines 35-50). -/
structure BuoyStation where
  id : String
  lat : ℚ
  lon : ℚ
  name : String
  wind_fallback : Option String

/-- The station registry BUOY_LIST (main.py lines 35-50). -/
def BUOY_LIST : List BuoyStation :=
  [⟨"46266", 32.933, -117.317, "Del Mar Nearshore", some "LJAC1"⟩,
   ⟨"46225", 32.866, -117.283, "Torrey Pines Outer", some "LJAC1"⟩,
   ⟨"46259", 32.749, -117.258, "Mission Bay", some "SDBC1"⟩,
   ⟨"46232", 32.65, -117.3, "Point Loma South", some "SDBC1"⟩,
   ⟨"46236", 32.55, -117.15, "Imperial Beach", some "TIXC1"⟩,
   ⟨"46258", 33.475, -118.533, "San Pedro Channel", some "LJAC1"⟩,
   ⟨"46222", 33.75, -118.833, "Santa Monica Basin", some "AGXC1"⟩,
   ⟨"46086", 34.25, -120.45, "Pt. Dume / Santa Barbara", none⟩,
   ⟨"46011", 34.935, -121.93, "Santa Maria", none⟩,
   ⟨"46027", 40.75, -124.5, "Cape Mendocino", none⟩,
   ⟨"46014", 39.22, -123.97, "Pt. Arena", none⟩,
   ⟨"46026", 37.75, -122.83, "San Francisco Bar", some "FTPC1"⟩,
   ⟨"46012", 36.75, -122.43, "Monterey Bay", some "MEYC1"⟩,
   ⟨"46013", 38.24, -123.31, "Bodega Bay", some "PRYC1"⟩]

/-- Metadata merge of the fan-out (main.py lines 315-320). -/
def mergeMeta (r : BuoyRecord) (b : BuoyStation) : BuoyRecord :=
  { r with lat := some b.lat, lon := some b.lon, name := some b.name }

/-- Model of `get_all_buoys` (main.py lines 304-322): one pipeline per
registry station, then the station metadata merged into every result by
registry position.  Each concurrent task is evaluated against the shared
cache as of launch; this is faithful for the results because the cache keys
the tasks touch (their own station ids) are pairwise distinct. -/
noncomputable def get_all_buoys (outcomes windOutcomes : String → FetchOutcome)
    (cache : Cache) (now : ℚ) : List BuoyRecord :=
  let results := BUOY_LIST.map fun b =>
    (fetch_buoy_data b.id true b.wind_fallback (outcomes b.id) windOutcomes cache now).1
  (results.zip BUOY_LIST).map fun rb => mergeMeta rb.1 rb.2

/-- Timestamp as constructed by `datetime(year, month, day, hour, minute)`. -/
structure DT where
  year : ℤ
  month : ℤ
  day : ℤ
  hour : ℤ
  minute : ℤ
deriving DecidableEq, Repr

/-- Gregorian leap-year rule, as `datetime` validates it. -/
def isLeap (y : ℤ) : Bool := (y % 4 == 0 && y % 100 != 0) || (y % 400 == 0)

/-- Days in a month, as `datetime` validates it. -/
def daysInMonth (y m : ℤ) : ℤ :=
  if m = 2 then (if isLeap y then 29 else 28)
  else if m = 4 ∨ m = 6 ∨ m = 9 ∨ m = 11 then 30
  else 31

/-- Whether `datetime(year, month, day, hour, minute)` succeeds. -/
def dtValid (t : DT) : Bool :=
  1 ≤ t.year && t.year ≤ 9999 && 1 ≤ t.month && t.month ≤ 12 &&
    1 ≤ t.day && t.day ≤ daysInMonth t.year t.month &&
    0 ≤ t.hour && t.hour ≤ 23 && 0 ≤ t.minute && t.minute ≤ 59

/-- Injective monotone key for comparing valid timestamps (lexicographic). -/
def dtKey (t : DT) : ℤ :=
  (((t.year * 13 + t.month) * 32 + t.day) * 24 + t.hour) * 60 + t.minute

/-- Chronological order on valid timestamps. -/
def dtLt (a b : DT) : Bool := dtKey a < dtKey b

/-- The `safe_float` helper of the history and forecast parsers (main.py
lines 398-403 and 678-683): sentinels 99, 999 and 9999 become absent; a
`None` or unparsable input also becomes absent (the bare except). -/
def safe_float (s : Option String) : Option ℚ :=
  match s with
  | none => none
  | some v => (pyFloat? v).bind fun f => if f = 99 ∨ f = 999 ∨ f = 9999 then none else some f

/-- One history data point (main.py lines 431-444). -/
structure HistPoint where
  timestamp : DT
  wvht_m : Option ℚ := none
  wvht_ft : Option ℚ := none
  dpd_sec : Option ℚ := none
  mwd_deg : Option ℚ := none
  surf_height_m : Option ℝ := none
  wave_energy : Option ℚ := none
  wspd_ms : Option ℚ := none
  wdir_deg : Option ℚ := none
  gst_ms : Option ℚ := none
  atmp_c : Option ℚ := none
  wtmp_c : Option ℚ := none

/-- Outcome of processing one history data line. -/
inductive RowOutcome
  | skip
  | keep (p : HistPoint)
  | crash

/-- Processing of one non-blank history data line (main.py lines 374-450):
lines with fewer than 5 tokens are skipped; the first five tokens must parse
as integers and form a valid timestamp not older than the cutoff (else the
row is skipped, via the caught ValueError / the explicit filter); the field
dict pairs the header with the tokens positionally; a negative period with a
present wave height raises inside `math.sqrt` and skips the row
(ValueError caught at main.py line 448).  `crash` models the uncaught
`TypeError` of iterating `headers = None`. -/
noncomputable def histRowOutcome (headers? : Option (List String)) (cutoff : DT)
    (parts : List String) : RowOutcome :=
  if parts.length < 5 then .skip
  else
    match pyInt? (parts.getD 0 ""), pyInt? (parts.getD 1 ""), pyInt? (parts.getD 2 ""),
        pyInt? (parts.getD 3 ""), pyInt? (parts.getD 4 "") with
    | some y0, some mo, some dy, some hh, some mn =>
        let y := if y0 < 100 then y0 + 2000 else y0
        let ts : DT := ⟨y, mo, dy, hh, mn⟩
        if dtValid ts = false then .skip
        else if dtLt ts cutoff then .skip
        else
          match headers? with
          | none => .crash
          | some headers =>
              let dd := dictZip headers parts
              let wvht := safe_float (dictGet? dd "WVHT")
              let dpd := safe_float (dictGet? dd "DPD")
              let base : HistPoint :=
                { timestamp := ts,
                  wvht_m := wvht,
                  wvht_ft := wvht.map fun w => round2q (w * 3.28084),
                  dpd_sec := dpd,
                  mwd_deg := safe_float (dictGet? dd "MWD"),
                  wspd_ms := safe_float (dictGet? dd "WSPD"),
                  wdir_deg := safe_float (dictGet? dd "WDIR"),
                  gst_ms := safe_float (dictGet? dd "GST"),
                  atmp_c := safe_float (dictGet? dd "ATMP"),
                  wtmp_c := safe_float (dictGet? dd "WTMP") }
              match wvht, dpd with
              | some w, some p =>
                  if p < 0 then .skip
                  else .keep { base with surf_height_m := some (surfHeightVal w p),
                                         wave_energy := some (round1q (w ^ 2 * p)) }
              | _, _ => .keep base
    | _, _, _, _, _ => .skip

/-- State of the history parse loop (main.py lines 358-450). -/
structure HistScan where
  headers : Option (List String) := none
  points : List HistPoint := []
  crashed : Bool := false

/-- One step of the history parse loop: the first comment line (whatever its
content) becomes the header; qualifying data lines append a point. -/
noncomputable def stepHist (cutoff : DT) (st : HistScan) : FeedLine → HistScan
  | .comment toks =>
      if st.crashed then st
      else if st.headers = none then { st with headers := some toks } else st
  | .data parts =>
      if st.crashed then st
      else if parts = [] then st
      else
        match histRowOutcome st.headers cutoff parts with
        | .skip => st
        | .keep p => { st with points := st.points ++ [p] }
        | .crash => { st with crashed := true }

/-- Stable insertion of a point into a list sorted by timestamp key. -/
def insertByTime (x : HistPoint) : List HistPoint → List HistPoint
  | [] => [x]
  | y :: ys => if dtKey y.timestamp ≤ dtKey x.timestamp then y :: insertByTime x ys
               else x :: y :: ys

/-- Stable ascending sort by timestamp (main.py line 453; the ISO-string
sort key coincides with chronological order for the 4-digit years here). -/
def sortByTime (l : List HistPoint) : List HistPoint := l.foldl (fun acc x => insertByTime x acc) []

/-- Result of the history endpoint. -/
structure HistoryResult where
  station_id : String
  hours : ℕ := 0
  data_points : ℕ := 0
  data : List HistPoint := []
  error : Option String := none

/-- Model of `get_buoy_history` (main.py lines 330-468) without its cache
interaction; `cutoff` is `utcnow - hours` computed by the caller; a result
of `none` models the uncaught exception (HTTP 500) when a data row precedes
any header line. -/
noncomputable def get_buoy_history (station_id : String) (hours : ℕ)
    (outcome : FetchOutcome) (cutoff : DT) : Option HistoryResult :=
  match outcome with
  | .success lines =>
      let st := lines.foldl (stepHist cutoff) {}
      if st.crashed then none
      else
        let sorted := sortByTime st.points
        some { station_id := station_id, hours := hours,
               data_points := sorted.length, data := sorted }
  | .timeout => some { station_id := station_id, data := [],
                       error := some "Failed to fetch data: timeout" }
  | .httpStatus code => some { station_id := station_id, data := [],
                               error := some ("Failed to fetch data: HTTP " ++ toString code) }
  | .transportErr msg => some { station_id := station_id, data := [],
                                error := some ("Failed to fetch data: " ++ msg) }

/-- One forecast point (main.py lines 562-572 and 726-735).  Timestamps are
seconds since the Unix epoch; the fallback points carry no direction. -/
structure FPoint where
  t : ℚ
  wvht_m : ℝ
  wvht_ft : ℝ
  dpd_sec : Option ℝ := none
  mwd_deg : Option ℚ := none
  surf_height_m : Option ℝ := none
  wave_energy : Option ℝ := none
  source : String
  confidence : String

/-- One decoded CDIP sample: timestamp (seconds since epoch, after the
units-string conversion of main.py lines 529-540), wave height, period and
direction; `none` models a NaN entry or a missing variable. -/
structure CdipSample where
  t : ℚ
  hs : Option ℚ := none
  tp : Option ℚ := none
  dp : Option ℚ := none

/-- One CDIP sample to one forecast point (main.py lines 529-577): samples
outside `[now, now + hours]`, with NaN height or negative height are
dropped; derived metrics need a truthy positive period; the point is tagged
source "CDIP_ECMWF", confidence "high". -/
noncomputable def cdipPoint? (now cutoff : ℚ) (s : CdipSample) : Option FPoint :=
  if s.t < now ∨ cutoff < s.t then none
  else
    match s.hs with
    | none => none
    | some w =>
        if w < 0 then none
        else
          let se : Option ℝ × Option ℚ :=
            match s.tp with
            | some p => if p ≠ 0 ∧ 0 < p then
                          (some (surfHeightVal w p), some (round1q (w ^ 2 * p)))
                        else (none, none)
            | none => (none, none)
          some { t := s.t, wvht_m := ((round2q w : ℚ) : ℝ),
                 wvht_ft := ((round2q (w * 3.28084) : ℚ) : ℝ),
                 dpd_sec := (s.tp.bind fun p => if p = 0 then none else some (round1q p)).map
                   (fun q => (q : ℝ)),
                 mwd_deg := s.dp.bind fun m => if m = 0 then none else some (round1q m),
                 surf_height_m := se.1,
                 wave_energy := se.2.map (fun q => (q : ℝ)),
                 source := "CDIP_ECMWF", confidence := "high" }

/-- Model of `fetch_cdip_ecmwf_forecast` (main.py lines 470-591): `none` for
a failed decode, else the in-window points; an empty point list is reported
as `none` (main.py lines 581-587). -/
noncomputable def fetch_cdip_ecmwf_forecast (decodeOutcome : Option (List CdipSample))
    (now : ℚ) (hours : ℕ) : Option (List FPoint) :=
  match decodeOutcome with
  | none => none
  | some samples =>
      let pts := samples.filterMap (cdipPoint? now (now + 3600 * hours))
      if pts.isEmpty then none else some pts

/-- State of the fallback baseline scan (main.py lines 660-700). -/
structure FcScan where
  headers : Option (List String) := none
  readings : List (ℚ × ℚ) := []
  crashed : Bool := false
  done : Bool := false

/-- One step of the fallback baseline scan over the first 20 feed lines:
the first comment line becomes the header, data lines with at least 5
tokens contribute a (height, period) pair when both are truthy, and the
scan stops after 5 readings.  `crashed` models the `TypeError` of a data
line before any header (caught only by the outer handler). -/
def stepFc (st : FcScan) : FeedLine → FcScan
  | .comment toks =>
      if st.crashed ∨ st.done then st
      else if st.headers = none then { st with headers := some toks } else st
  | .data parts =>
      if st.crashed ∨ st.done then st
      else if parts = [] then st
      else if parts.length < 5 then st
      else
        match st.headers with
        | none => { st with crashed := true }
        | some headers =>
            let dd := dictZip headers parts
            let wvht := safe_float (dictGet? dd "WVHT")
            let dpd := safe_float (dictGet? dd "DPD")
            if qTruthy wvht ∧ qTruthy dpd then
              match wvht, dpd with
              | some w, some p =>
                  let rs := st.readings ++ [(w, p)]
                  if 5 ≤ rs.length then { st with readings := rs, done := true }
                  else { st with readings := rs }
              | _, _ => st
            else st

/-- The stride indices `range(0, hours, 3)` of main.py line 717. -/
def strideIdx (hours : ℕ) : List ℕ := (List.range ((hours + 2) / 3)).map (3 * ·)

open scoped Classical

/-- One synthesized trend-projection point (main.py lines 717-737): a
deterministic sine modulation of the baseline averages, 3-hour stride,
tagged source "trend_projection", confidence "low". -/
noncomputable def trendPoint (avg_wvht avg_period : ℚ) (now : ℚ) (i : ℕ) : FPoint :=
  let variation : ℝ := 0.1 * Real.sin ((i : ℝ) / 12)
  let fw : ℝ := (avg_wvht : ℝ) * (1 + variation)
  let fp : ℝ := (avg_period : ℝ) * (1 + variation * 0.5)
  { t := now + 3600 * i,
    wvht_m := round2r fw, wvht_ft := round2r (fw * 3.28084),
    dpd_sec := some (round1r fp),
    surf_height_m := if fw ≠ 0 ∧ fp ≠ 0 then
        some (round2r ((0.7 : ℝ) * fw * Real.sqrt fp)) else none,
    wave_energy := if fw ≠ 0 ∧ fp ≠ 0 then some (round1r (fw ^ 2 * fp)) else none,
    source := "trend_projection", confidence := "low" }

/-- Result of the forecast endpoint. -/
structure ForecastResult where
  station_id : String
  cdip_id : Option String := none
  cdip_available : Bool := false
  forecast_hours : ℕ := 0
  data_points : ℕ := 0
  note : Option String := none
  source : Option String := none
  error : Option String := none
  data : List FPoint := []

/-- Model of `get_buoy_forecast` (main.py lines 593-763) without its cache
interaction: no (truthy) model-source mapping yields an unavailable result;
a successful decode with a non-empty window yields the CDIP points; else the
trend-projection fallback runs over the first 20 lines of the current feed.
The error branches model the outer exception handler (main.py lines
758-763), including the `math.sqrt` ValueError when the baseline average
period is negative while the average height is nonzero. -/
noncomputable def get_buoy_forecast (station_id : String) (hours : ℕ)
    (mapping : Option String) (decodeOutcome : Option (List CdipSample))
    (feedOutcome : FetchOutcome) (now : ℚ) : ForecastResult :=
  if strTruthy mapping = false then
    { station_id := station_id, cdip_available := false,
      error := some ("No CDIP forecast available for station " ++ station_id) }
  else
    match fetch_cdip_ecmwf_forecast decodeOutcome now hours with
    | some pts =>
        { station_id := station_id, cdip_id := mapping, cdip_available := true,
          forecast_hours := hours, data_points := pts.length,
          note := some "Real CDIP ECMWF model forecast from THREDDS server",
          data := pts }
    | none =>
        match feedOutcome with
        | .success lines =>
            let st := (lines.take 20).foldl stepFc {}
            if st.crashed then
              { station_id := station_id,
                error := some "Failed to generate forecast: TypeError" }
            else if st.readings.isEmpty then
              { station_id := station_id, error := some "Insufficient data for forecast" }
            else
              let n : ℚ := st.readings.length
              let avg_wvht := (st.readings.map Prod.fst).sum / n
              let avg_period := (st.readings.map Prod.snd).sum / n
              if avg_wvht ≠ 0 ∧ avg_period < 0 then
                { station_id := station_id,
                  error := some "Failed to generate forecast: math domain error" }
              else
                let pts := (strideIdx hours).map (trendPoint avg_wvht avg_period now)
                { station_id := station_id, cdip_id := mapping, cdip_available := true,
                  forecast_hours := hours, data_points := pts.length,
                  source := some "trend_fallback",
                  note := some "Fallback: Trend projection (CDIP ECMWF data temporarily unavailable)",
                  data := pts }
        | .timeout =>
            { station_id := station_id, error := some "Failed to generate forecast: timeout" }
        | .httpStatus code =>
            { station_id := station_id,
              error := some ("Failed to generate forecast: HTTP " ++ toString code) }
        | .transportErr msg =>
            { station_id := station_id,
              error := some ("Failed to generate forecast: " ++ msg) }

/-- Arithmetic mean of a list of rationals. -/
def listMean (l : List ℚ) : ℚ := l.sum / (l.length : ℚ)

/-- Trend classification transcribed from the specification's wording
(spec section 4.3), for comparison with the code's `wave_trend`. -/
def trendSpec (ws : List ℚ) : String :=
  if ws.length < 3 then "holding"
  else
    let recent := listMean (ws.take 2)
    let older := listMean ((ws.drop 2).take 2)
    let diffPct := (recent - older) / older * 100
    if 10 < diffPct then "rising"
    else if diffPct < -10 then "falling"
    else "holding"

/-! Concrete feed used by the C1 and C6 counterexamples: the first valid
row has wave height 0.0, period 9.0, MWD token "MM" and WTMP token 999.0. -/

/-- Header of the concrete sentinel feed. -/
def hdrS : List String := ["MM", "DD", "hh", "mm", "WVHT", "DPD", "MWD", "WTMP"]

/-- Data row of the concrete sentinel feed. -/
def rowS : List String := ["10", "12", "11", "30", "0.0", "9.0", "MM", "999.0"]

/-- The concrete sentinel feed. -/
def feedS : List FeedLine := [.comment hdrS, .data rowS]

/-- Dict of the sentinel feed's row. -/
def ddS : Dict := dictZip hdrS rowS

/-- Record returned for the sentinel feed by the full fetch. -/
noncomputable def recS : BuoyRecord :=
  (fetch_buoy_data "XS" true none (.success feedS) (fun _ => .timeout) [] 0).1

/-- Helper: the single-station pipeline as launched by the fan-out. -/
noncomputable def stationPipeline (outcomes windOutcomes : String → FetchOutcome)
    (cache : Cache) (now : ℚ) (b : BuoyStation) : BuoyRecord :=
  (fetch_buoy_data b.id true b.wind_fallback (outcomes b.id) windOutcomes cache now).1

/-- Failure kinds of the per-station pipeline named by C4: timeout, bad
HTTP status, transport error, or a feed without a valid data row. -/
def failedOutcome : FetchOutcome → Prop
  | .timeout => True
  | .httpStatus _ => True
  | .transportErr _ => True
  | .success lines => (scanCurrent lines).first_valid_row = none

/-! Concrete feeds for the C5 wind-fallback example: the primary feed's
first valid row has WSPD 99.0 (absent after the sentinel) and no WDIR
column; the fallback feed reports speed 5.2. -/

/-- Header of the C5 primary feed. -/
def hdrW : List String := ["MM", "DD", "hh", "mm", "WVHT", "DPD", "MWD", "WSPD"]

/-- Data row of the C5 primary feed. -/
def rowW : List String := ["10", "12", "11", "30", "2.0", "9.0", "275", "99.0"]

/-- The C5 primary feed. -/
def feedW : List FeedLine := [.comment hdrW, .data rowW]

/-- Dict of the C5 primary feed's row. -/
def ddW : Dict := dictZip hdrW rowW

/-- Header of the C5 fallback feed. -/
def hdrF : List String := ["MM", "DD", "hh", "mm", "WDIR", "WSPD", "GST"]

/-- Data row of the C5 fallback feed. -/
def rowF : List String := ["10", "12", "11", "40", "300", "5.2", "6.1"]

/-- The C5 fallback feed. -/
def feedF : List FeedLine := [.comment hdrF, .data rowF]

/-- Dict of the C5 fallback feed's row. -/
def ddF : Dict := dictZip hdrF rowF

/-- Record returned for the C5 primary feed by the full fetch, with the
fallback station reporting speed 5.2. -/
noncomputable def recW : BuoyRecord :=
  (fetch_buoy_data "46266" true (some "LJAC1") (.success feedW)
    (fun _ => .success feedF) [] 0).1

/-- A primary record lacking wind direction (used as a C5 witness input). -/
def primNoWind : BuoyRecord := { station := "X", wind_dir := none, wind_speed_ms := some 3 }

/-- A primary record with wind direction absent but speed and gust present
(used as a C10 witness input). -/
def primPartial : BuoyRecord :=
  { station := "X", wind_dir := none, wind_speed_ms := some 5, wind_gust_ms := some 7 }

/-! Concrete history feed for C7: an 8-column header and a 6-token data
line; the history parser accepts the line although the counts differ. -/

/-- Header of the concrete history feed (8 columns). -/
def hdrH : List String := ["YY", "MM", "DD", "hh", "mm", "WVHT", "DPD", "MWD"]

/-- Data row of the concrete history feed (6 tokens). -/
def rowH : List String := ["25", "01", "15", "12", "00", "2.5"]

/-- The concrete history feed. -/
def feedH : List FeedLine := [.comment hdrH, .data rowH]

/-- Dict pairing the history header with the short row. -/
def ddH : Dict := dictZip hdrH rowH

/-- Cutoff far in the past, so the concrete row is in the window. -/
def cutoffH : DT := ⟨2020, 1, 1, 0, 0⟩

/-- The history point produced from the short row. -/
noncomputable def ptH : HistPoint :=
  { timestamp := ⟨2025, 1, 15, 12, 0⟩, wvht_m := some (5 / 2),
    wvht_ft := some (round2q (5 / 2 * 3.28084)) }

/-! Concrete forecast inputs for C8: one in-window decoded CDIP sample, and
a current feed whose only valid (height, period) pair sits past line 20. -/

/-- One decoded CDIP sample: t = 3600 s, Hs = 2 m, Tp = 10 s, Dp = 270°. -/
def sampleC : CdipSample := { t := 3600, hs := some 2, tp := some 10, dp := some 270 }

/-- The forecast point produced from `sampleC`. -/
noncomputable def ptC : FPoint :=
  { t := 3600, wvht_m := ((round2q 2 : ℚ) : ℝ),
    wvht_ft := ((round2q (2 * 3.28084) : ℚ) : ℝ),
    dpd_sec := some ((round1q 10 : ℚ) : ℝ), mwd_deg := some (round1q 270),
    surf_height_m := some (surfHeightVal 2 10),
    wave_energy := some ((round1q (2 ^ 2 * 10) : ℚ) : ℝ),
    source := "CDIP_ECMWF", confidence := "high" }

/-- Current feed whose 21st line holds the only valid (height, period)
pair; the fallback scan reads only the first 20 lines. -/
def feed21 : List FeedLine :=
  .comment hdrW :: (List.replicate 19 (.data []) ++ [.data rowW])

/-! Character and token evaluation facts used to run the embedded parsers
on concrete feeds. -/

theorem chToNat0 : ('0' : Char).toNat = 48 := rfl

theorem chToNat1 : ('1' : Char).toNat = 49 := rfl

theorem chToNat2 : ('2' : Char).toNat = 50 := rfl

theorem chToNat3 : ('3' : Char).toNat = 51 := rfl

theorem chToNat5 : ('5' : Char).toNat = 53 := rfl

theorem chToNat6 : ('6' : Char).toNat = 54 := rfl

theorem chToNat9 : ('9' : Char).toNat = 57 := rfl

theorem pf_0 : pyFloat? "0" = some 0 := by
  have h : "0".data = ['0'] := rfl
  simp +decide only [pyFloat?, h, List.dropWhile, List.takeWhile, List.head?]
  norm_num [digitsVal, chToNat0]

theorem pf_00 : pyFloat? "0.0" = some 0 := by
  have h : "0.0".data = ['0', '.', '0'] := rfl
  simp +decide only [pyFloat?, h, List.dropWhile, List.takeWhile, List.head?]
  norm_num [digitsVal, chToNat0] <;> exact fun hc => absurd hc (by decide)

theorem pf_90 : pyFloat? "9.0" = some 9 := by
  have h : "9.0".data = ['9', '.', '0'] := rfl
  simp +decide only [pyFloat?, h, List.dropWhile, List.takeWhile, List.head?]
  norm_num [digitsVal, chToNat0, chToNat9] <;> exact fun hc => absurd hc (by decide)

theorem pf_9990 : pyFloat? "999.0" = some 999 := by
  have h : "999.0".data = ['9', '9', '9', '.', '0'] := rfl
  simp +decide only [pyFloat?, h, List.dropWhile, List.takeWhile, List.head?]
  norm_num [digitsVal, chToNat0, chToNat9] <;> exact fun hc => absurd hc (by decide)

theorem pf_20 : pyFloat? "2.0" = some 2 := by
  have h : "2.0".data = ['2', '.', '0'] := rfl
  simp +decide only [pyFloat?, h, List.dropWhile, List.takeWhile, List.head?]
  norm_num [digitsVal, chToNat0, chToNat2] <;> exact fun hc => absurd hc (by decide)

theorem pf_990 : pyFloat? "99.0" = some 99 := by
  have h : "99.0".data = ['9', '9', '.', '0'] := rfl
  simp +decide only [pyFloat?, h, List.dropWhile, List.takeWhile, List.head?]
  norm_num [digitsVal, chToNat0, chToNat9] <;> exact fun hc => absurd hc (by decide)

theorem pf_52 : pyFloat? "5.2" = some (26 / 5) := by
  have h : "5.2".data = ['5', '.', '2'] := rfl
  simp +decide only [pyFloat?, h, List.dropWhile, List.takeWhile, List.head?]
  norm_num [digitsVal, chToNat2, chToNat5] <;> exact fun hc => absurd hc (by decide)

theorem pf_300 : pyFloat? "300" = some 300 := by
  have h : "300".data = ['3', '0', '0'] := rfl
  simp +decide only [pyFloat?, h, List.dropWhile, List.takeWhile, List.head?]
  norm_num [digitsVal, chToNat0, chToNat3]

theorem pf_61 : pyFloat? "6.1" = some (61 / 10) := by
  have h : "6.1".data = ['6', '.', '1'] := rfl
  simp +decide only [pyFloat?, h, List.dropWhile, List.takeWhile, List.head?]
  norm_num [digitsVal, chToNat1, chToNat6] <;> exact fun hc => absurd hc (by decide)

theorem pf_25 : pyFloat? "2.5" = some (5 / 2) := by
  have h : "2.5".data = ['2', '.', '5'] := rfl
  simp +decide only [pyFloat?, h, List.dropWhile, List.takeWhile, List.head?]
  norm_num [digitsVal, chToNat2, chToNat5] <;> exact fun hc => absurd hc (by decide)

theorem pf_MM : pyFloat? "MM" = none := by
  have h : "MM".data = ['M', 'M'] := rfl
  simp +decide only [pyFloat?, h, List.dropWhile, List.takeWhile, List.head?]

theorem ddS_WVHT : dictGetD ddS "WVHT" "0" = "0.0" := rfl

theorem ddS_DPD : dictGetD ddS "DPD" "0" = "9.0" := rfl

theorem ddS_MWD : dictGetD ddS "MWD" "N/A" = "MM" := rfl

theorem ddS_WTMP : dictGetD ddS "WTMP" "0" = "999.0" := rfl

theorem ddS_ATMP : dictGetD ddS "ATMP" "0" = "0" := rfl

theorem ddS_WDIR : dictGetD ddS "WDIR" "0" = "0" := rfl

theorem ddS_WSPD : dictGetD ddS "WSPD" "0" = "0" := rfl

theorem ddS_GST : dictGetD ddS "GST" "0" = "0" := rfl

theorem scan_feedS : scanCurrent feedS =
    { headers := hdrS, wave_heights := [], first_valid_row := some ddS } := by
  have h1 : stepCurrent {} (.comment hdrS) = { headers := hdrS } := by
    simp +decide [stepCurrent, currentHeaderLine, hdrS]
  have h2 : stepCurrent { headers := hdrS } (.data rowS) =
      { headers := hdrS, wave_heights := [], first_valid_row := some ddS } := by
    have e0 : (rowS = []) = False := by simp [rowS]
    have e1 : (hdrS = []) = False := by simp [hdrS]
    have e2 : rowS.length = hdrS.length := rfl
    have g4 : dictZip hdrS rowS = ddS := rfl
    have g1 : dictGet? ddS "WVHT" = some "0.0" := rfl
    have g2 : dictGet? ddS "DPD" = some "9.0" := rfl
    have g3 : dictGetD ddS "WVHT" "0" = "0.0" := rfl
    simp +decide [stepCurrent, e0, e1, e2, g4, g1, g2, g3, pf_00,
      show ¬((0 : ℚ) < 0) by norm_num]
  simp [scanCurrent, feedS, h1, h2]

theorem buildResult_feedS (bid : String) (w : String → FetchOutcome) :
    buildResult bid (scanCurrent feedS) none w =
      { station := bid, timestamp_utc := some "None-10-12T11:30:00Z",
        wave_height_m := some 0, wave_trend := some "holding",
        surf_height_m := none, wave_energy := none,
        dominant_period_sec := some (Sum.inl 9), mean_wave_dir := some "MM",
        water_temp_c := some 999, air_temp_c := some 0,
        wind_dir := none, wind_speed_ms := some 0, wind_gust_ms := some 0,
        wind_source := some "buoy" } := by
  have hWVHT : parseWVHT ddS = some 0 := by simp [parseWVHT, ddS_WVHT, pf_00]
  have hDPD : parseDPD ddS = some 9 := by simp [parseDPD, ddS_DPD, pf_90]
  have hWTMP : parseWTMP ddS = some 999 := by simp [parseWTMP, ddS_WTMP, pf_9990]
  have hATMP : parseATMP ddS = some 0 := by simp [parseATMP, ddS_ATMP, pf_0]
  have hWDIR : parseWDIR ddS = none := by simp [parseWDIR, ddS_WDIR, pf_0]
  have hWSPD : parseWSPD ddS = some 0 := by
    simp [parseWSPD, ddS_WSPD, pf_0, show (0 : ℚ) ≠ 99 by norm_num]
  have hGST : parseGST ddS = some 0 := by
    simp [parseGST, ddS_GST, pf_0, show (0 : ℚ) ≠ 99 by norm_num]
  have hSE : surfEnergy (some 0) (some 9) = some (none, none) := by
    norm_num [surfEnergy]
  have hTS : timestampUTC ddS = some "None-10-12T11:30:00Z" := rfl
  rw [scan_feedS]
  simp only [buildResult, hWVHT, hDPD, hSE, hTS, hWTMP, hATMP, hWDIR, hWSPD, hGST]
  simp [applyWindFallback, strTruthy, wave_trend, ddS_MWD]

theorem recS_eval : recS =
    { station := "XS", timestamp_utc := some "None-10-12T11:30:00Z",
      wave_height_m := some 0, wave_trend := some "holding",
      surf_height_m := none, wave_energy := none,
      dominant_period_sec := some (Sum.inl 9), mean_wave_dir := some "MM",
      water_temp_c := some 999, air_temp_c := some 0,
      wind_dir := none, wind_speed_ms := some 0, wind_gust_ms := some 0,
      wind_source := some "buoy" } := by
  rw [recS, fetch_buoy_data]
  simp only [cacheGet?, List.lookup, fetchFresh, buildResult_feedS]

/-- C1 counterexample: in the sentinel feed's first valid row the wave
height 0.0 is present and the period 9.0 is positive, yet the returned
record carries no derived metrics, while the claim's formula would give
`some (surfHeightVal 0 9)` (that is, 0.0). -/
theorem C1_counterexample :
    recS.wave_height_m = some 0 ∧ recS.dominant_period_sec = some (Sum.inl 9) ∧
    (0 : ℚ) < 9 ∧ recS.surf_height_m = none ∧ recS.wave_energy = none ∧
    (none : Option ℝ) ≠ some (surfHeightVal 0 9) := by
  rw [recS_eval]
  refine ⟨rfl, rfl, by norm_num, rfl, rfl, by simp⟩

/-- C1 (amended): derived metrics follow the claimed formulas whenever both
inputs are present, the wave height is nonzero, and the period is positive;
at wave height 2.0 and period 9.0 the surf height is 4.2 and the wave
energy 36.0. -/
theorem C1_surf_energy (h p : ℚ) (hh : h ≠ 0) (hp : 0 < p) :
    surfEnergy (some h) (some p) =
      some (some (surfHeightVal h p), some (round1q (h ^ 2 * p))) ∧
    surfHeightVal 2 9 = 4.2 ∧ round1q (2 ^ 2 * 9) = 36 := by
  refine ⟨?_, ?_, ?_⟩
  · simp [surfEnergy, hh, hp.ne', not_lt.mpr hp.le]
  · have h9 : Real.sqrt (((9 : ℚ) : ℝ)) = 3 := by
      rw [show (((9 : ℚ)) : ℝ) = (3 : ℝ) ^ 2 by norm_num,
        Real.sqrt_sq (by norm_num : (0 : ℝ) ≤ 3)]
    rw [surfHeightVal, h9, round2r]
    norm_num [round_eq]
  · norm_num [round1q, round_eq]

/-- Witness for C1 at the inputs named by the claim. -/
theorem C1_surf_energy_witness :
    (2 : ℚ) ≠ 0 ∧ (0 : ℚ) < 9 ∧
    surfEnergy (some 2) (some 9) =
      some (some (surfHeightVal 2 9), some (round1q (2 ^ 2 * 9))) :=
  ⟨by norm_num, by norm_num, (C1_surf_energy 2 9 (by norm_num) (by norm_num)).1⟩

/-- Helper: a bind guarded by a sentinel test never returns a sentinel. -/
theorem guardedBind_ne (o : Option ℚ) (p : ℚ → Prop) [DecidablePred p] (v : ℚ) (hv : p v) :
    (o.bind fun q => if p q then none else some q) ≠ some v := by
  cases o with
  | none => simp
  | some q =>
      by_cases hq : p q
      · simp [hq]
      · intro h
        have h2 : (if p q then none else some q) = some v := h
        rw [if_neg hq] at h2
        exact hq (Option.some.inj h2 ▸ hv)

/-- C6 counterexample: the sentinel feed's record returned to the caller
carries the raw sentinel string "MM" as its mean wave direction and the raw
sentinel number 999 as its water temperature, instead of an absent marker. -/
theorem C6_counterexample :
    recS.mean_wave_dir = some "MM" ∧ recS.water_temp_c = some 999 := by
  rw [recS_eval]; exact ⟨rfl, rfl⟩

/-- C6 (amended): sentinel normalisation holds for the wind fields
(direction 999 or 0, speed and gust 99, all to absent, never to zero), for
the dominant period used in derivations (0 to absent), and for every
history or forecast field read through `safe_float` (99, 999, 9999 to
absent); but `mean_wave_dir` and the `dominant_period_sec` fallback expose
the raw token, and the temperature fields are not sentinel-filtered. -/
theorem C6_sentinel_policy (d : Dict) (tok : Option String) :
    parseWDIR d ≠ some 999 ∧ parseWDIR d ≠ some 0 ∧
    parseWSPD d ≠ some 99 ∧ parseGST d ≠ some 99 ∧ parseDPD d ≠ some 0 ∧
    safe_float tok ≠ some 99 ∧ safe_float tok ≠ some 999 ∧ safe_float tok ≠ some 9999 := by
  have hsf : ∀ v : ℚ, (v = 99 ∨ v = 999 ∨ v = 9999) →
      safe_float tok ≠ some v := by
    intro v hv
    cases tok with
    | none => simp [safe_float]
    | some s => exact guardedBind_ne (pyFloat? s) _ v hv
  refine ⟨guardedBind_ne _ _ _ (Or.inl rfl), guardedBind_ne _ _ _ (Or.inr rfl),
    guardedBind_ne _ _ _ rfl, guardedBind_ne _ _ _ rfl, guardedBind_ne _ _ _ rfl,
    hsf 99 (Or.inl rfl), hsf 999 (Or.inr (Or.inl rfl)), hsf 9999 (Or.inr (Or.inr rfl))⟩

/-- Helper: zipping a mapped list with its source pairs each element with
its image. -/
theorem map_zip_self {α β : Type} (f : α → β) (l : List α) :
    (l.map f).zip l = l.map fun a => (f a, a) := by
  induction l with
  | nil => rfl
  | cons a t ih => simp [ih]

/-- Helper: the fan-out is the registry-ordered map of the merged pipeline. -/
theorem get_all_buoys_eq_map (o w : String → FetchOutcome) (cache : Cache) (now : ℚ) :
    get_all_buoys o w cache now =
      BUOY_LIST.map fun b => mergeMeta (stationPipeline o w cache now b) b := by
  simp only [get_all_buoys, map_zip_self, List.map_map]
  rfl

/-- C3: the all-stations fan-out yields exactly one entry per registry
station, in registry order, and every entry (success or error) carries that
station's latitude, longitude and name merged in after completion. -/
theorem C3_fanout (o w : String → FetchOutcome) (cache : Cache) (now : ℚ) :
    (get_all_buoys o w cache now).length = BUOY_LIST.length ∧
    (∀ i : ℕ, (get_all_buoys o w cache now)[i]? =
      (BUOY_LIST[i]?).map fun b => mergeMeta (stationPipeline o w cache now b) b) ∧
    (∀ i : ℕ, ∀ b, BUOY_LIST[i]? = some b →
      ∃ r, (get_all_buoys o w cache now)[i]? = some r ∧
        r.lat = some b.lat ∧ r.lon = some b.lon ∧ r.name = some b.name) := by
  rw [get_all_buoys_eq_map]
  refine ⟨by simp, fun i => by simp, fun i b hb => ?_⟩
  exact ⟨mergeMeta (stationPipeline o w cache now b) b,
    by simp [hb], rfl, rfl, rfl⟩

/-- Witness for C3 at a concrete input (all fetches time out). -/
theorem C3_fanout_witness :
    BUOY_LIST[0]? = some ⟨"46266", 32.933, -117.317, "Del Mar Nearshore", some "LJAC1"⟩ ∧
    ∃ r, (get_all_buoys (fun _ => .timeout) (fun _ => .timeout) [] 0)[0]? = some r ∧
      r.lat = some (32.933 : ℚ) ∧ r.lon = some (-117.317 : ℚ) ∧
      r.name = some "Del Mar Nearshore" := by
  have hb : BUOY_LIST[0]? =
      some ⟨"46266", 32.933, -117.317, "Del Mar Nearshore", some "LJAC1"⟩ := rfl
  exact ⟨hb, (C3_fanout (fun _ => .timeout) (fun _ => .timeout) [] 0).2.2 0 _ hb⟩

/-- C4: a failing pipeline yields an error-tagged record for that station
only; every sibling entry is exactly its own pipeline's merged result,
unaffected by the failing station's outcome, and carries no error tag when
its own pipeline succeeded. -/
theorem C4_isolation (o o2 w : String → FetchOutcome) (cache : Cache) (now : ℚ)
    (j : ℕ) (bj : BuoyStation) (hbj : BUOY_LIST[j]? = some bj) :
    (cacheGet? cache bj.id = none → failedOutcome (o bj.id) →
      (stationPipeline o w cache now bj).error.isSome) ∧
    ((∀ s, s ≠ bj.id → o2 s = o s) →
      ∀ i : ℕ, ∀ b, BUOY_LIST[i]? = some b → b.id ≠ bj.id →
        (get_all_buoys o2 w cache now)[i]? =
          some (mergeMeta (stationPipeline o w cache now b) b)) ∧
    (∀ i : ℕ, ∀ b, BUOY_LIST[i]? = some b → b.id ≠ bj.id →
      (stationPipeline o w cache now b).error = none →
      ∃ r, (get_all_buoys o w cache now)[i]? = some r ∧ r.error = none) := by
  refine ⟨?_, ?_, ?_⟩
  · intro hmiss hfail
    unfold stationPipeline fetch_buoy_data
    rw [hmiss]
    cases ho : o bj.id with
    | timeout => simp [fetchFresh, errorRecord]
    | httpStatus c => simp [fetchFresh, errorRecord]
    | transportErr m => simp [fetchFresh, errorRecord]
    | success lines =>
        rw [ho] at hfail
        simp only [failedOutcome] at hfail
        simp [fetchFresh, buildResult, hfail, errorRecord]
  · intro hsame i b hb hne
    rw [get_all_buoys_eq_map]
    simp only [List.getElem?_map, hb]
    have : stationPipeline o2 w cache now b = stationPipeline o w cache now b := by
      unfold stationPipeline
      rw [hsame b.id hne]
    simp [this]
  · intro i b hb hne herr
    refine ⟨mergeMeta (stationPipeline o w cache now b) b, ?_, ?_⟩
    · rw [get_all_buoys_eq_map]
      simp [hb]
    · simpa [mergeMeta] using herr

/-- Witness for C4 at a concrete input: station 0's fetch times out while
station 1 is unaffected. -/
theorem C4_isolation_witness :
    cacheGet? [] "46266" = none ∧ failedOutcome .timeout ∧
    (stationPipeline (fun _ => .timeout) (fun _ => .timeout) [] 0
      ⟨"46266", 32.933, -117.317, "Del Mar Nearshore", some "LJAC1"⟩).error.isSome ∧
    (get_all_buoys (fun _ => .timeout) (fun _ => .timeout) [] 0)[1]? =
      some (mergeMeta (stationPipeline (fun _ => .timeout) (fun _ => .timeout) [] 0
        ⟨"46225", 32.866, -117.283, "Torrey Pines Outer", some "LJAC1"⟩)
        ⟨"46225", 32.866, -117.283, "Torrey Pines Outer", some "LJAC1"⟩) := by
  have hbj : BUOY_LIST[0]? =
      some ⟨"46266", 32.933, -117.317, "Del Mar Nearshore", some "LJAC1"⟩ := rfl
  have hb1 : BUOY_LIST[1]? =
      some ⟨"46225", 32.866, -117.283, "Torrey Pines Outer", some "LJAC1"⟩ := rfl
  refine ⟨rfl, trivial, ?_, ?_⟩
  · exact (C4_isolation (fun _ => .timeout) (fun _ => .timeout) (fun _ => .timeout)
      [] 0 0 _ hbj).1 rfl trivial
  · exact (C4_isolation (fun _ => .timeout) (fun _ => .timeout) (fun _ => .timeout)
      [] 0 0 _ hbj).2.1 (fun s _ => rfl) 1 _ hb1 (by decide)

theorem scan_feedW : scanCurrent feedW =
    { headers := hdrW, wave_heights := [2], first_valid_row := some ddW } := by
  have h1 : stepCurrent {} (.comment hdrW) = { headers := hdrW } := by
    simp +decide [stepCurrent, currentHeaderLine, hdrW]
  have h2 : stepCurrent { headers := hdrW } (.data rowW) =
      { headers := hdrW, wave_heights := [2], first_valid_row := some ddW } := by
    have e0 : (rowW = []) = False := by simp [rowW]
    have e1 : (hdrW = []) = False := by simp [hdrW]
    have e2 : rowW.length = hdrW.length := rfl
    have g4 : dictZip hdrW rowW = ddW := rfl
    have g1 : dictGet? ddW "WVHT" = some "2.0" := rfl
    have g2 : dictGet? ddW "DPD" = some "9.0" := rfl
    have g3 : dictGetD ddW "WVHT" "0" = "2.0" := rfl
    simp +decide [stepCurrent, e0, e1, e2, g4, g1, g2, g3, pf_20,
      show (0 : ℚ) < 2 by norm_num]
  simp [scanCurrent, feedW, h1, h2]

theorem fetch_wind_feedF :
    fetch_wind_from_station "LJAC1" (.success feedF) =
      { wind_dir := some 300, wind_speed_ms := some (26 / 5),
        wind_gust_ms := some (61 / 10), wind_source := some "LJAC1" } := by
  have hrow : windFindRow [] feedF = some ddF := by
    have e1 : windHeaderLine hdrF = true := by decide
    have e0 : (rowF = []) = False := by simp [rowF]
    have e2 : rowF.length = hdrF.length := rfl
    have e3 : (hdrF = []) = False := by simp [hdrF]
    have g4 : dictZip hdrF rowF = ddF := rfl
    simp [feedF, windFindRow, e1, e0, e2, e3, g4]
  have g1 : dictGetD ddF "WDIR" "0" = "300" := rfl
  have g2 : dictGetD ddF "WSPD" "0" = "5.2" := rfl
  have g3 : dictGetD ddF "GST" "0" = "6.1" := rfl
  simp only [fetch_wind_from_station, hrow]
  have p1 : parseWDIR ddF = some 300 := by
    norm_num [parseWDIR, g1, pf_300]
  have p2 : parseWSPD ddF = some (26 / 5) := by
    norm_num [parseWSPD, g2, pf_52]
  have p3 : parseGST ddF = some (61 / 10) := by
    norm_num [parseGST, g3, pf_61]
  rw [p1, p2, p3]

theorem buildResult_feedW (bid : String) :
    buildResult bid (scanCurrent feedW) (some "LJAC1") (fun _ => .success feedF) =
      { station := bid, timestamp_utc := some "None-10-12T11:30:00Z",
        wave_height_m := some 2, wave_trend := some "holding",
        surf_height_m := some (surfHeightVal 2 9), wave_energy := some (round1q 36),
        dominant_period_sec := some (Sum.inl 9), mean_wave_dir := some "275",
        water_temp_c := some 0, air_temp_c := some 0,
        wind_dir := some 300, wind_speed_ms := some (26 / 5),
        wind_gust_ms := some (61 / 10), wind_source := some "LJAC1" } := by
  have hWVHT : parseWVHT ddW = some 2 := by
    simp [parseWVHT, show dictGetD ddW "WVHT" "0" = "2.0" from rfl, pf_20]
  have hDPD : parseDPD ddW = some 9 := by
    simp [parseDPD, show dictGetD ddW "DPD" "0" = "9.0" from rfl, pf_90]
  have hWTMP : parseWTMP ddW = some 0 := by
    simp [parseWTMP, show dictGetD ddW "WTMP" "0" = "0" from rfl, pf_0]
  have hATMP : parseATMP ddW = some 0 := by
    simp [parseATMP, show dictGetD ddW "ATMP" "0" = "0" from rfl, pf_0]
  have hWDIR : parseWDIR ddW = none := by
    simp [parseWDIR, show dictGetD ddW "WDIR" "0" = "0" from rfl, pf_0]
  have hWSPD : parseWSPD ddW = none := by
    simp [parseWSPD, show dictGetD ddW "WSPD" "0" = "99.0" from rfl, pf_990]
  have hGST : parseGST ddW = some 0 := by
    simp [parseGST, show dictGetD ddW "GST" "0" = "0" from rfl, pf_0,
      show (0 : ℚ) ≠ 99 by norm_num]
  have hSE : surfEnergy (some 2) (some 9) = some (some (surfHeightVal 2 9), some (round1q 36)) := by
    norm_num [surfEnergy]
  have hTS : timestampUTC ddW = some "None-10-12T11:30:00Z" := rfl
  rw [scan_feedW]
  simp only [buildResult, hWVHT, hDPD, hSE, hTS, hWTMP, hATMP, hWDIR, hWSPD, hGST]
  simp [applyWindFallback, strTruthy, wave_trend, fetch_wind_feedF, pyOrStrD,
    show dictGetD ddW "MWD" "N/A" = "275" from rfl]

theorem recW_eval : recW =
    { station := "46266", timestamp_utc := some "None-10-12T11:30:00Z",
      wave_height_m := some 2, wave_trend := some "holding",
      surf_height_m := some (surfHeightVal 2 9), wave_energy := some (round1q 36),
      dominant_period_sec := some (Sum.inl 9), mean_wave_dir := some "275",
      water_temp_c := some 0, air_temp_c := some 0,
      wind_dir := some 300, wind_speed_ms := some (26 / 5),
      wind_gust_ms := some (61 / 10), wind_source := some "LJAC1" } := by
  rw [recW, fetch_buoy_data]
  simp only [cacheGet?, List.lookup, fetchFresh, buildResult_feedW]

/-- Helper: a sourceless wind-fallback result is the all-absent dict. -/
theorem fetch_wind_sourceless (sid : String) (o : FetchOutcome)
    (h : (fetch_wind_from_station sid o).wind_source = none) :
    fetch_wind_from_station sid o = {} := by
  cases o with
  | success lines =>
      simp only [fetch_wind_from_station] at h ⊢
      cases hrow : windFindRow [] lines with
      | some d => rw [hrow] at h; simp at h
      | none => rfl
  | timeout => rfl
  | httpStatus c => rfl
  | transportErr m => rfl

/-- Helper: a returned wind-fallback row comes from a header mentioning
WDIR and WSPD and has exactly as many tokens as the header. -/
theorem windFindRow_inv (lines : List FeedLine) : ∀ hs d,
    (hs = [] ∨ windHeaderLine hs = true) → windFindRow hs lines = some d →
    ∃ hs2 ts, windHeaderLine hs2 = true ∧ ts.length = hs2.length ∧ d = dictZip hs2 ts := by
  induction lines with
  | nil => intro hs d _ h; simp [windFindRow] at h
  | cons l rest ih =>
      intro hs d hinv h
      cases l with
      | comment toks =>
          rw [windFindRow] at h
          split at h
          · next hc => exact ih toks d (Or.inr hc.2) h
          · exact ih hs d hinv h
      | data toks =>
          rw [windFindRow] at h
          split at h
          · exact ih hs d hinv h
          · split at h
            · exact ih hs d hinv h
            · next hc2 =>
                push_neg at hc2
                refine ⟨hs, toks, ?_, hc2.2, (Option.some.inj h).symm⟩
                rcases hinv with h0 | hok
                · exact absurd h0 hc2.1
                · exact hok

/-- C5: when the primary record's wind direction or speed is absent and a
(truthy) fallback station is configured, the resolver fetches the fallback
feed (whose accepted row always comes from a header mentioning WDIR and
WSPD, with matching token count), overwrites the three wind fields with the
sentinel-filtered fallback values and sets the wind source to the fallback
id or "N/A"; with no fallback or both primary fields present the record is
untouched (so its wind source stays "buoy"); concretely, a fallback
reporting speed 5.2 yields wind_speed_ms 5.2 and wind_source "LJAC1". -/
theorem C5_wind_resolver (r : BuoyRecord) (fb : Option String) (w : String → FetchOutcome) :
    ((r.wind_dir = none ∨ r.wind_speed_ms = none) → ∀ s, fb = some s → s ≠ "" →
      applyWindFallback r fb w =
        { r with wind_dir := (fetch_wind_from_station s (w s)).wind_dir,
                 wind_speed_ms := (fetch_wind_from_station s (w s)).wind_speed_ms,
                 wind_gust_ms := (fetch_wind_from_station s (w s)).wind_gust_ms,
                 wind_source := some (pyOrStrD (fetch_wind_from_station s (w s)).wind_source
                   "N/A") }) ∧
    ((r.wind_dir ≠ none ∧ r.wind_speed_ms ≠ none) ∨ fb = none ∨ fb = some "" →
      applyWindFallback r fb w = r) ∧
    (∀ lines d, windFindRow [] lines = some d →
      ∃ hs ts, windHeaderLine hs = true ∧ ts.length = hs.length ∧ d = dictZip hs ts) ∧
    (recW.wind_speed_ms = some (26 / 5) ∧ recW.wind_source = some "LJAC1") := by
  refine ⟨?_, ?_, ?_, ?_⟩
  · rintro hmiss s rfl hs
    have hcond : (r.wind_dir = none ∨ r.wind_speed_ms = none) ∧
        strTruthy (some s) = true := ⟨hmiss, by simp [strTruthy, hs]⟩
    simp only [applyWindFallback, if_pos hcond]
  · rintro (hboth | rfl | rfl)
    · simp only [applyWindFallback]
      rw [if_neg]
      rintro ⟨hmiss, -⟩
      rcases hmiss with h | h
      · exact hboth.1 h
      · exact hboth.2 h
    · simp only [applyWindFallback]
      rw [if_neg]
      rintro ⟨-, hf⟩
      simp [strTruthy] at hf
    · simp only [applyWindFallback]
      rw [if_neg]
      rintro ⟨-, hf⟩
      simp [strTruthy] at hf
  · intro lines d h
    exact windFindRow_inv lines [] d (Or.inl rfl) h
  · rw [recW_eval]
    exact ⟨rfl, rfl⟩

/-- Witness for C5 at concrete inputs. -/
theorem C5_wind_resolver_witness :
    (primNoWind.wind_dir = none ∨ primNoWind.wind_speed_ms = none) ∧
    "LJAC1" ≠ "" ∧
    applyWindFallback primNoWind (some "LJAC1") (fun _ => .success feedF) =
      { primNoWind with
        wind_dir := (fetch_wind_from_station "LJAC1" (.success feedF)).wind_dir,
        wind_speed_ms := (fetch_wind_from_station "LJAC1" (.success feedF)).wind_speed_ms,
        wind_gust_ms := (fetch_wind_from_station "LJAC1" (.success feedF)).wind_gust_ms,
        wind_source := some (pyOrStrD
          (fetch_wind_from_station "LJAC1" (.success feedF)).wind_source "N/A") } :=
  ⟨Or.inl rfl, by decide,
    (C5_wind_resolver primNoWind (some "LJAC1") (fun _ => .success feedF)).1
      (Or.inl rfl) "LJAC1" rfl (by decide)⟩

/-- C10 (implicit): with wind direction absent, wind speed present and a
fallback configured, the resolution overwrites all three wind fields with
the fallback's values unconditionally; if the fallback yields nothing, the
previously present speed and gust are replaced by absent and the wind
source becomes "N/A". -/
theorem C10_partial_wind_discard (r : BuoyRecord) (s : String) (hs : s ≠ "")
    (hdir : r.wind_dir = none) (spd : ℚ) (hspd : r.wind_speed_ms = some spd)
    (w : String → FetchOutcome) :
    (applyWindFallback r (some s) w).wind_dir = (fetch_wind_from_station s (w s)).wind_dir ∧
    (applyWindFallback r (some s) w).wind_speed_ms =
      (fetch_wind_from_station s (w s)).wind_speed_ms ∧
    (applyWindFallback r (some s) w).wind_gust_ms =
      (fetch_wind_from_station s (w s)).wind_gust_ms ∧
    ((fetch_wind_from_station s (w s)).wind_source = none →
      (applyWindFallback r (some s) w).wind_speed_ms = none ∧
      (applyWindFallback r (some s) w).wind_gust_ms = none ∧
      (applyWindFallback r (some s) w).wind_source = some "N/A") := by
  have hmerge : applyWindFallback r (some s) w =
      { r with wind_dir := (fetch_wind_from_station s (w s)).wind_dir,
               wind_speed_ms := (fetch_wind_from_station s (w s)).wind_speed_ms,
               wind_gust_ms := (fetch_wind_from_station s (w s)).wind_gust_ms,
               wind_source := some (pyOrStrD (fetch_wind_from_station s (w s)).wind_source
                 "N/A") } := by
    have hcond : (r.wind_dir = none ∨ r.wind_speed_ms = none) ∧
        strTruthy (some s) = true := ⟨Or.inl hdir, by simp [strTruthy, hs]⟩
    simp only [applyWindFallback, if_pos hcond]
  refine ⟨by rw [hmerge], by rw [hmerge], by rw [hmerge], fun hsrc => ?_⟩
  have hall := fetch_wind_sourceless s (w s) hsrc
  rw [hmerge, hall]
  exact ⟨rfl, rfl, rfl⟩

/-- Witness for C10 at concrete inputs (the fallback fetch times out). -/
theorem C10_partial_wind_discard_witness :
    "SDBC1" ≠ "" ∧ primPartial.wind_dir = none ∧ primPartial.wind_speed_ms = some 5 ∧
    (fetch_wind_from_station "SDBC1" FetchOutcome.timeout).wind_source = none ∧
    (applyWindFallback primPartial (some "SDBC1") (fun _ => .timeout)).wind_speed_ms = none ∧
    (applyWindFallback primPartial (some "SDBC1") (fun _ => .timeout)).wind_source
      = some "N/A" := by
  have happ := (C10_partial_wind_discard primPartial "SDBC1" (by decide) rfl 5 rfl
    (fun _ => .timeout)).2.2.2 rfl
  exact ⟨by decide, rfl, rfl, rfl, happ.1, happ.2.2⟩

/-- Helper: filtering out another key does not change a lookup. -/
theorem lookup_filter_ne (c : Cache) (k b : String) (hne : k ≠ b) :
    (c.filter fun p => p.1 ≠ b).lookup k = c.lookup k := by
  induction c with
  | nil => rfl
  | cons e t ih =>
      obtain ⟨k1, v1⟩ := e
      by_cases he : k1 = b
      · have hd : (decide ((k1, v1).1 ≠ b)) = false := by simp [he]
        have hkk : (k == k1) = false := by
          subst he; simp [beq_iff_eq, hne]
        simp only [List.filter_cons, hd, Bool.false_eq_true, if_false, List.lookup, hkk, ih]
      · have hd : (decide ((k1, v1).1 ≠ b)) = true := by simp [he]
        simp only [List.filter_cons, hd, if_true, List.lookup]
        cases hkk : k == k1 with
        | true => rfl
        | false => exact ih

/-- Helper: a cache write only touches its own key. -/
theorem cacheGet?_set (c : Cache) (b k : String) (v : ℚ × BuoyRecord) :
    cacheGet? (cacheSet c b v) k = if k = b then some v else cacheGet? c k := by
  by_cases h : k = b
  · simp [cacheGet?, cacheSet, List.lookup, h]
  · simp only [cacheGet?, cacheSet, List.lookup,
      show (k == b) = false by simp [h], if_neg h]
    exact lookup_filter_ne c k b h

/-- Helper: the fresh fetch leaves the cache unchanged or writes its own
station key. -/
theorem fetchFresh_snd_cases (bid : String) (fb : Option String) (o : FetchOutcome)
    (w : String → FetchOutcome) (cache : Cache) (now : ℚ) :
    (fetchFresh bid fb o w cache now).2 = cache ∨
    ∃ v, (fetchFresh bid fb o w cache now).2 = cacheSet cache bid v := by
  cases o with
  | timeout => exact Or.inl rfl
  | httpStatus c => exact Or.inl rfl
  | transportErr m => exact Or.inl rfl
  | success lines =>
      simp only [fetchFresh]
      cases hr : (buildResult bid (scanCurrent lines) fb w).error with
      | some msg => exact Or.inl rfl
      | none => exact Or.inr ⟨(now, buildResult bid (scanCurrent lines) fb w), rfl⟩

/-- Helper: the full fetch leaves the cache unchanged or writes its own
station key. -/
theorem fetch_snd_cases (bid : String) (uc : Bool) (fb : Option String) (o : FetchOutcome)
    (w : String → FetchOutcome) (cache : Cache) (now : ℚ) :
    (fetch_buoy_data bid uc fb o w cache now).2 = cache ∨
    ∃ v, (fetch_buoy_data bid uc fb o w cache now).2 = cacheSet cache bid v := by
  rw [fetch_buoy_data]
  cases hc : cacheGet? cache bid with
  | some e =>
      by_cases hfresh : uc = true ∧ now - e.1 < CACHE_DURATION
      · simp [hfresh]
      · simp [hfresh]
        rcases fetchFresh_snd_cases bid fb o w cache now with h | ⟨⟨a, b⟩, h⟩
        · exact Or.inl h
        · exact Or.inr ⟨a, b, h⟩
  | none => exact fetchFresh_snd_cases bid fb o w cache now

/-- C9: a fetch ending in any error (timeout, bad upstream status,
transport failure, or a feed with no valid data rows) leaves the cache
unchanged; no fetch ever removes an existing entry; and only the explicit
clear-all operation empties the cache. -/
theorem C9_cache_on_error (bid : String) (uc : Bool) (fb : Option String)
    (outcome : FetchOutcome) (w : String → FetchOutcome) (cache : Cache) (now : ℚ) :
    ((outcome = .timeout ∨ (∃ c, outcome = .httpStatus c) ∨
        (∃ m, outcome = .transportErr m)) →
      (fetch_buoy_data bid uc fb outcome w cache now).2 = cache) ∧
    (∀ lines, outcome = .success lines → (scanCurrent lines).first_valid_row = none →
      (fetch_buoy_data bid uc fb outcome w cache now).2 = cache) ∧
    (∀ k, (cacheGet? cache k).isSome →
      (cacheGet? (fetch_buoy_data bid uc fb outcome w cache now).2 k).isSome) ∧
    (clear_cache cache = [] ∧ ∀ k, cacheGet? (clear_cache cache) k = none) := by
  have hff : ∀ o2 : FetchOutcome,
      (o2 = FetchOutcome.timeout ∨ (∃ c, o2 = .httpStatus c) ∨
        (∃ m, o2 = .transportErr m) ∨
        (∃ lines, o2 = .success lines ∧ (scanCurrent lines).first_valid_row = none)) →
      (fetchFresh bid fb o2 w cache now).2 = cache := by
    rintro o2 (rfl | ⟨c, rfl⟩ | ⟨m, rfl⟩ | ⟨lines, rfl, hnone⟩)
    · rfl
    · rfl
    · rfl
    · simp only [fetchFresh, buildResult, hnone, errorRecord]
  have hmain : ∀ o2 : FetchOutcome,
      (o2 = FetchOutcome.timeout ∨ (∃ c, o2 = .httpStatus c) ∨
        (∃ m, o2 = .transportErr m) ∨
        (∃ lines, o2 = .success lines ∧ (scanCurrent lines).first_valid_row = none)) →
      (fetch_buoy_data bid uc fb o2 w cache now).2 = cache := by
    intro o2 h2
    rw [fetch_buoy_data]
    cases hc : cacheGet? cache bid with
    | some e =>
        by_cases hfresh : uc = true ∧ now - e.1 < CACHE_DURATION
        · simp [hfresh]
        · simp [hfresh]
          exact hff o2 h2
    | none =>
        simp only []
        exact hff o2 h2
  refine ⟨?_, ?_, ?_, rfl, fun k => rfl⟩
  · rintro (rfl | ⟨c, rfl⟩ | ⟨m, rfl⟩)
    · exact hmain _ (Or.inl rfl)
    · exact hmain _ (Or.inr (Or.inl ⟨c, rfl⟩))
    · exact hmain _ (Or.inr (Or.inr (Or.inl ⟨m, rfl⟩)))
  · rintro lines rfl hnone
    exact hmain _ (Or.inr (Or.inr (Or.inr ⟨lines, rfl, hnone⟩)))
  · intro k hk
    rcases fetch_snd_cases bid uc fb outcome w cache now with h | ⟨v, h⟩
    · rw [h]; exact hk
    · rw [h, cacheGet?_set]
      by_cases hkb : k = bid
      · simp [hkb]
      · rw [if_neg hkb]; exact hk

/-- Witness for C9 at concrete inputs: a timed-out fetch against a
non-empty cache. -/
theorem C9_cache_on_error_witness :
    (FetchOutcome.timeout = FetchOutcome.timeout ∨
      (∃ c, FetchOutcome.timeout = .httpStatus c) ∨
      (∃ m, FetchOutcome.timeout = .transportErr m)) ∧
    (fetch_buoy_data "46266" true none .timeout (fun _ => .timeout)
      [("K", (0, primPartial))] 7).2 = [("K", (0, primPartial))] ∧
    (cacheGet? [("K", (0, primPartial))] "K").isSome ∧
    (cacheGet? (fetch_buoy_data "46266" true none .timeout (fun _ => .timeout)
      [("K", (0, primPartial))] 7).2 "K").isSome :=
  ⟨Or.inl rfl,
   (C9_cache_on_error "46266" true none .timeout (fun _ => .timeout)
     [("K", (0, primPartial))] 7).1 (Or.inl rfl),
   rfl,
   (C9_cache_on_error "46266" true none .timeout (fun _ => .timeout)
     [("K", (0, primPartial))] 7).2.2.1 "K" rfl⟩

theorem histRow_keep : histRowOutcome (some hdrH) cutoffH rowH = .keep ptH := by
  have e0 : rowH.length = 6 := rfl
  have q0 : rowH.getD 0 "" = "25" := rfl
  have q1 : rowH.getD 1 "" = "01" := rfl
  have q2 : rowH.getD 2 "" = "15" := rfl
  have q3 : rowH.getD 3 "" = "12" := rfl
  have q4 : rowH.getD 4 "" = "00" := rfl
  have e1 : pyInt? "25" = some 25 := rfl
  have e2 : pyInt? "01" = some 1 := rfl
  have e3 : pyInt? "15" = some 15 := rfl
  have e4 : pyInt? "12" = some 12 := rfl
  have e5 : pyInt? "00" = some 0 := rfl
  have g4 : dictZip hdrH rowH = ddH := rfl
  have s1 : safe_float (dictGet? ddH "WVHT") = some (5 / 2) := by
    rw [show dictGet? ddH "WVHT" = some "2.5" from rfl]
    norm_num [safe_float, pf_25]
  have s2 : safe_float (dictGet? ddH "DPD") = none := by
    rw [show dictGet? ddH "DPD" = none from rfl]; rfl
  have s3 : safe_float (dictGet? ddH "MWD") = none := by
    rw [show dictGet? ddH "MWD" = none from rfl]; rfl
  have s4 : safe_float (dictGet? ddH "WSPD") = none := by
    rw [show dictGet? ddH "WSPD" = none from rfl]; rfl
  have s5 : safe_float (dictGet? ddH "WDIR") = none := by
    rw [show dictGet? ddH "WDIR" = none from rfl]; rfl
  have s6 : safe_float (dictGet? ddH "GST") = none := by
    rw [show dictGet? ddH "GST" = none from rfl]; rfl
  have s7 : safe_float (dictGet? ddH "ATMP") = none := by
    rw [show dictGet? ddH "ATMP" = none from rfl]; rfl
  have s8 : safe_float (dictGet? ddH "WTMP") = none := by
    rw [show dictGet? ddH "WTMP" = none from rfl]; rfl
  have hvalid : dtValid ⟨2025, 1, 15, 12, 0⟩ = true := by decide
  have hlt : dtLt ⟨2025, 1, 15, 12, 0⟩ cutoffH = false := by decide
  simp +decide only [histRowOutcome, e0, q0, q1, q2, q3, q4, e1, e2, e3, e4, e5, g4,
    s1, s2, s3, s4, s5, s6, s7, s8, hvalid, hlt, ptH]
  norm_num

/-- C7 counterexample: the history pass turns the 6-token line under an
8-column header into a data point (and the endpoint reports it), although
the token count differs from the header's column count. -/
theorem C7_counterexample :
    rowH.length = 6 ∧ hdrH.length = 8 ∧ rowH.length ≠ hdrH.length ∧
    get_buoy_history "46266" 48 (.success feedH) cutoffH =
      some { station_id := "46266", hours := 48, data_points := 1, data := [ptH] } := by
  have h1 : stepHist cutoffH {} (.comment hdrH) = { headers := some hdrH } := by
    simp [stepHist]
  have h2 : stepHist cutoffH { headers := some hdrH } (.data rowH) =
      { headers := some hdrH, points := [ptH] } := by
    have hp : (rowH = []) = False := by simp [rowH]
    simp [stepHist, hp, histRow_keep]
  refine ⟨rfl, rfl, by decide, ?_⟩
  simp [get_buoy_history, feedH, h1, h2, sortByTime, insertByTime]

/-- C7 (amended): the current-conditions pass and the wind-fallback pass
accept a data line only when its token count equals the active header's
column count; the history pass instead skips lines with fewer than 5
tokens and accepts any data line whose first five tokens form a valid
in-window timestamp, regardless of the header's column count. -/
theorem C7_row_acceptance :
    (∀ (st : CurrentScan) (toks : List String),
      stepCurrent st (.data toks) ≠ st →
        st.headers ≠ [] ∧ toks.length = st.headers.length) ∧
    (∀ (hs : List String) (lines : List FeedLine) (d : Dict),
      windFindRow hs lines = some d →
      ∃ hs2 ts, ts.length = hs2.length ∧ d = dictZip hs2 ts) ∧
    (∀ (cutoff : DT) (st : HistScan) (parts : List String), parts.length < 5 →
      stepHist cutoff st (.data parts) = st) ∧
    (∀ (cutoff : DT) (headers parts : List String) (pt : HistPoint),
      histRowOutcome (some headers) cutoff parts = .keep pt →
      ∀ st : HistScan, st.crashed = false → st.headers = some headers →
        stepHist cutoff st (.data parts) = { st with points := st.points ++ [pt] }) := by
  refine ⟨?_, ?_, ?_, ?_⟩
  · intro st toks hne
    by_cases h1 : toks = []
    · exact absurd (by simp [stepCurrent, h1]) hne
    · by_cases h2 : st.headers = [] ∨ toks.length ≠ st.headers.length
      · refine absurd ?_ hne
        simp only [stepCurrent]
        rw [if_neg h1, if_pos h2]
      · push_neg at h2
        exact ⟨h2.1, h2.2⟩
  · intro hs lines
    induction lines generalizing hs with
    | nil => intro d h; simp [windFindRow] at h
    | cons l rest ih =>
        intro d h
        cases l with
        | comment toks =>
            rw [windFindRow] at h
            split at h
            · exact ih toks d h
            · exact ih hs d h
        | data toks =>
            rw [windFindRow] at h
            split at h
            · exact ih hs d h
            · split at h
              · exact ih hs d h
              · next hc =>
                  push_neg at hc
                  exact ⟨hs, toks, hc.2, (Option.some.inj h).symm⟩
  · intro cutoff st parts h5
    by_cases hcr : st.crashed
    · simp [stepHist, hcr]
    · by_cases hp : parts = []
      · simp [stepHist, hcr, hp]
      · have hskip : histRowOutcome st.headers cutoff parts = .skip := by
          simp only [histRowOutcome]
          rw [if_pos h5]
        simp [stepHist, hcr, hp, hskip]
  · intro cutoff headers parts pt hkeep st hcr hhd
    have hp : parts ≠ [] := by
      rintro rfl
      rw [show histRowOutcome (some headers) cutoff [] = .skip by
        simp only [histRowOutcome]; rw [if_pos (by simp)]] at hkeep
      exact RowOutcome.noConfusion hkeep
    simp [stepHist, hcr, hp, hhd, hkeep]

/-- Witness for C7 at the concrete history feed. -/
theorem C7_row_acceptance_witness :
    histRowOutcome (some hdrH) cutoffH rowH = .keep ptH ∧
    stepHist cutoffH { headers := some hdrH } (.data rowH) =
      { headers := some hdrH, points := [ptH] } := by
  refine ⟨histRow_keep, ?_⟩
  have happ := (C7_row_acceptance).2.2.2 cutoffH hdrH rowH ptH histRow_keep
    { headers := some hdrH } rfl rfl
  simpa using happ

theorem cdipPoint_sampleC :
    cdipPoint? 0 (0 + 3600 * ((120 : ℕ) : ℚ)) sampleC = some ptC := by
  norm_num [cdipPoint?, sampleC, ptC]

theorem fc_cdip : fetch_cdip_ecmwf_forecast (some [sampleC]) 0 120 = some [ptC] := by
  simp only [fetch_cdip_ecmwf_forecast, List.filterMap_cons,
    cdipPoint_sampleC, List.filterMap_nil]
  simp

theorem stepFc_blank (st : FcScan) : stepFc st (.data []) = st := by
  by_cases h : st.crashed ∨ st.done <;> simp [stepFc, h]

theorem foldFc_blank (n : ℕ) (st : FcScan) :
    List.foldl stepFc st (List.replicate n (.data [])) = st := by
  induction n generalizing st with
  | zero => rfl
  | succ k ih => simp [List.replicate_succ, stepFc_blank, ih]

theorem scanFc_feed21 : (feed21.take 20).foldl stepFc {} = { headers := some hdrW } := by
  have htake : feed21.take 20 =
      FeedLine.comment hdrW :: List.replicate 19 (.data []) := by
    simp [feed21, List.take_cons, List.take_append_of_le_length, List.length_replicate]
  have h1 : stepFc {} (.comment hdrW) = { headers := some hdrW } := by
    simp [stepFc]
  rw [htake]
  simp only [List.foldl_cons, h1, foldFc_blank]

/-- C8 counterexample, in two parts.  First, a successful model decode
yields points tagged "CDIP_ECMWF" (and "high"), not "model".  Second, for a
feed whose only valid (height, period) pair sits past the 20th line, the
resolver does not synthesize the claimed trend projection at all: it
returns an error with no data, although the feed has a valid pair and the
claimed 3-hour stride over 120 hours would have 40 points. -/
theorem C8_counterexample :
    ((get_buoy_forecast "46225" 120 (some "153p1") (some [sampleC]) .timeout 0).data.map
      (fun p => p.source) = ["CDIP_ECMWF"] ∧
     (get_buoy_forecast "46225" 120 (some "153p1") (some [sampleC]) .timeout 0).data.map
      (fun p => p.confidence) = ["high"] ∧
     "CDIP_ECMWF" ≠ "model") ∧
    (qTruthy (safe_float (dictGet? (dictZip hdrW rowW) "WVHT")) = true ∧
     qTruthy (safe_float (dictGet? (dictZip hdrW rowW) "DPD")) = true ∧
     (get_buoy_forecast "46232" 120 (some "155p1") none (.success feed21) 0).error =
       some "Insufficient data for forecast" ∧
     (get_buoy_forecast "46232" 120 (some "155p1") none (.success feed21) 0).data = [] ∧
     (strideIdx 120).length = 40) := by
  constructor
  · have hres : get_buoy_forecast "46225" 120 (some "153p1") (some [sampleC]) .timeout 0 =
        { station_id := "46225", cdip_id := some "153p1", cdip_available := true,
          forecast_hours := 120, data_points := 1,
          note := some "Real CDIP ECMWF model forecast from THREDDS server",
          data := [ptC] } := by
      simp [get_buoy_forecast, strTruthy, fc_cdip]
    rw [hres]
    refine ⟨?_, ?_, by decide⟩
    · simp [ptC]
    · simp [ptC]
  · have s1 : safe_float (dictGet? (dictZip hdrW rowW) "WVHT") = some 2 := by
      rw [show dictGet? (dictZip hdrW rowW) "WVHT" = some "2.0" from rfl]
      norm_num [safe_float, pf_20]
    have s2 : safe_float (dictGet? (dictZip hdrW rowW) "DPD") = some 9 := by
      rw [show dictGet? (dictZip hdrW rowW) "DPD" = some "9.0" from rfl]
      norm_num [safe_float, pf_90]
    have hres : get_buoy_forecast "46232" 120 (some "155p1") none (.success feed21) 0 =
        { station_id := "46232", error := some "Insufficient data for forecast" } := by
      simp [get_buoy_forecast, strTruthy, fetch_cdip_ecmwf_forecast, scanFc_feed21]
    refine ⟨?_, ?_, by rw [hres], by rw [hres], by decide⟩
    · rw [s1]; norm_num [qTruthy]
    · rw [s2]; norm_num [qTruthy]

/-- Helper: a point built from a CDIP sample is tagged "CDIP_ECMWF" and
"high". -/
theorem cdipPoint?_tags (now cutoff : ℚ) (s : CdipSample) (p : FPoint)
    (h : cdipPoint? now cutoff s = some p) :
    p.source = "CDIP_ECMWF" ∧ p.confidence = "high" := by
  simp only [cdipPoint?] at h
  split at h
  · exact absurd h (by simp)
  · split at h
    · exact absurd h (by simp)
    · split at h
      · exact absurd h (by simp)
      · obtain rfl := Option.some.inj h
        exact ⟨rfl, rfl⟩

/-- C8 (amended): a station with no (truthy) model-source mapping yields an
unavailable result with empty data; a successful decode with a non-empty
window yields exactly the decoded points, every one tagged source
"CDIP_ECMWF" and confidence "high"; on decode failure or an empty window
the resolver scans the first 20 lines of the current feed for up to 5 valid
(height, period) pairs, averages them, and synthesizes one point per 3-hour
stride across the horizon by a deterministic sine modulation of the
averages, every point tagged source "trend_projection" and confidence
"low". -/
theorem C8_forecast_resolution (sid : String) (hours : ℕ) (mapping : Option String)
    (dec : Option (List CdipSample)) (feed : FetchOutcome) (now : ℚ) :
    (strTruthy mapping = false →
      get_buoy_forecast sid hours mapping dec feed now =
        { station_id := sid, cdip_available := false,
          error := some ("No CDIP forecast available for station " ++ sid) }) ∧
    (∀ pts, fetch_cdip_ecmwf_forecast dec now hours = some pts →
      strTruthy mapping = true →
      (get_buoy_forecast sid hours mapping dec feed now).data = pts ∧
      (get_buoy_forecast sid hours mapping dec feed now).cdip_available = true ∧
      ∀ p ∈ pts, p.source = "CDIP_ECMWF" ∧ p.confidence = "high") ∧
    (∀ lines, fetch_cdip_ecmwf_forecast dec now hours = none →
      strTruthy mapping = true → feed = .success lines →
      ((lines.take 20).foldl stepFc {}).crashed = false →
      ((lines.take 20).foldl stepFc {}).readings ≠ [] →
      ∀ aw ap : ℚ,
        aw = ((((lines.take 20).foldl stepFc {}).readings.map Prod.fst).sum /
          ((((lines.take 20).foldl stepFc {}).readings.length : ℕ) : ℚ)) →
        ap = ((((lines.take 20).foldl stepFc {}).readings.map Prod.snd).sum /
          ((((lines.take 20).foldl stepFc {}).readings.length : ℕ) : ℚ)) →
        ¬(aw ≠ 0 ∧ ap < 0) →
        (get_buoy_forecast sid hours mapping dec feed now).data =
          (strideIdx hours).map (trendPoint aw ap now) ∧
        (∀ p ∈ (strideIdx hours).map (trendPoint aw ap now),
          p.source = "trend_projection" ∧ p.confidence = "low") ∧
        (∀ i : ℕ, (trendPoint aw ap now i).t = now + 3600 * (i : ℚ)) ∧
        (∀ i : ℕ, (trendPoint aw ap now i).wvht_m =
          round2r ((aw : ℝ) * (1 + 0.1 * Real.sin ((i : ℝ) / 12)))) ∧
        strideIdx hours = (List.range ((hours + 2) / 3)).map (fun k => 3 * k)) := by
  refine ⟨?_, ?_, ?_⟩
  · intro hm
    simp [get_buoy_forecast, hm]
  · intro pts hpts hm
    have hres : (get_buoy_forecast sid hours mapping dec feed now).data = pts ∧
        (get_buoy_forecast sid hours mapping dec feed now).cdip_available = true := by
      simp [get_buoy_forecast, hm, hpts]
    refine ⟨hres.1, hres.2, fun p hp => ?_⟩
    have hfc : ∃ samples, dec = some samples ∧
        pts = samples.filterMap (cdipPoint? now (now + 3600 * hours)) := by
      cases dec with
      | none => simp [fetch_cdip_ecmwf_forecast] at hpts
      | some samples =>
          simp only [fetch_cdip_ecmwf_forecast] at hpts
          split at hpts
          · exact absurd hpts (by simp)
          · exact ⟨samples, rfl, (Option.some.inj hpts).symm⟩
    obtain ⟨samples, -, rfl⟩ := hfc
    rw [List.mem_filterMap] at hp
    obtain ⟨s, -, hs⟩ := hp
    exact cdipPoint?_tags _ _ _ _ hs
  · rintro lines hnone hm rfl hcr hrd aw ap haw hap hdom
    have hres : (get_buoy_forecast sid hours mapping dec (.success lines) now).data =
        (strideIdx hours).map (trendPoint aw ap now) := by
      simp only [get_buoy_forecast]
      rw [if_neg (by simp [hm])]
      simp only [hnone]
      rw [if_neg (by simp [hcr]), if_neg (by simp [List.isEmpty_iff, hrd]),
        if_neg (by rw [← haw, ← hap]; exact hdom)]
      rw [← haw, ← hap]
    refine ⟨hres, fun p hp => ?_, fun i => rfl, fun i => rfl, by simp [strideIdx]⟩
    rw [List.mem_map] at hp
    obtain ⟨i, -, rfl⟩ := hp
    exact ⟨rfl, rfl⟩

/-- Witness for C8 at the concrete decoded sample. -/
theorem C8_forecast_resolution_witness :
    fetch_cdip_ecmwf_forecast (some [sampleC]) 0 120 = some [ptC] ∧
    strTruthy (some "153p1") = true ∧
    (get_buoy_forecast "46225" 120 (some "153p1") (some [sampleC]) .timeout 0).data = [ptC] ∧
    (get_buoy_forecast "46225" 120 (some "153p1") (some [sampleC]) .timeout 0).cdip_available
      = true ∧
    ∀ p ∈ [ptC], p.source = "CDIP_ECMWF" ∧ p.confidence = "high" := by
  have happ := (C8_forecast_resolution "46225" 120 (some "153p1") (some [sampleC])
    .timeout 0).2.1 [ptC] fc_cdip (by decide)
  exact ⟨fc_cdip, by decide, happ.1, happ.2.1, happ.2.2⟩

/-- C2: for every list of collected wave-height samples (feed order, newest
first): with fewer than 3 samples the trend is "holding"; with at least 3
samples the trend follows the specification's mean-based percentage rule
(recent = mean of samples 0..1, older = mean of samples 2..3, rising iff the
change exceeds +10%, falling iff below -10%, else holding); in particular
[3.0, 3.0, 2.0, 2.0] yields "rising" and a single sample yields "holding". -/
theorem C2_wave_trend (ws : List ℚ) :
    (ws.length < 3 → wave_trend ws = "holding") ∧
    (3 ≤ ws.length → wave_trend ws = trendSpec ws) ∧
    wave_trend [3, 3, 2, 2] = "rising" ∧
    (∀ x : ℚ, wave_trend [x] = "holding") := by
  refine ⟨?_, ?_, by norm_num [wave_trend], fun x => by simp [wave_trend]⟩
  · intro h
    simp [wave_trend, Nat.not_le.mpr h]
  · intro h
    have hlt : ¬ ws.length < 3 := Nat.not_lt.mpr h
    have h2 : (ws.take 2).length = 2 := by
      rw [List.length_take]; omega
    have h4 : ((ws.drop 2).take 2).length = min 2 (ws.length - 2) := by
      rw [List.length_take, List.length_drop]
    have h5 : min 2 ((ws.drop 2).take 2).length = ((ws.drop 2).take 2).length := by
      omega
    simp only [wave_trend, trendSpec, listMean, if_pos h, if_neg hlt, h2, h5]
    norm_num

/-- Witness for C2 at the inputs named by the claim. -/
theorem C2_wave_trend_witness :
    (([2] : List ℚ).length < 3 ∧ wave_trend [2] = "holding") ∧
    (3 ≤ ([3, 3, 2, 2] : List ℚ).length ∧ wave_trend [3, 3, 2, 2] = trendSpec [3, 3, 2, 2]) :=
  ⟨⟨by simp, (C2_wave_trend [2]).1 (by simp)⟩,
   ⟨by simp, (C2_wave_trend [3, 3, 2, 2]).2.1 (by simp)⟩⟩

/-- Witness for C6 at concrete inputs. -/
theorem C6_sentinel_policy_witness :
    parseWDIR ddS ≠ some 999 ∧ safe_float (some "999.0") ≠ some 999 :=
  ⟨(C6_sentinel_policy ddS (some "999.0")).1,
   (C6_sentinel_policy ddS (some "999.0")).2.2.2.2.2.2.1⟩

end MySurfLife
